import Mathlib

/-!
Verification of the cobana metrics-aggregation pipeline against its
natural-language specification.  Python dictionaries are modelled as
association lists (first binding wins at lookup), Python floats as exact
rationals, and the per-analyzer mutable accumulators as explicit state
records folded over the input stream.
-/

namespace Cobana

/-! ## Association-list dictionaries (Python dict / defaultdict) -/

/-- Lookup in an association list: the first binding for the key. -/
def lookupA {α : Type} (d : List (String × α)) (k : String) : Option α :=
  match d with
  | [] => none
  | (n, v) :: rest => if n = k then some v else lookupA rest k

/-- Python defaultdict access-and-mutate: apply f to the entry at key k,
inserting f applied to the default when the key is absent. -/
def updA {α : Type} (d : List (String × α)) (k : String) (dflt : α) (f : α → α) :
    List (String × α) :=
  match d with
  | [] => [(k, f dflt)]
  | (n, v) :: rest => if n = k then (n, f v) :: rest else (n, v) :: updA rest k dflt f

/-- Python dict assignment d[k] = v. -/
def setA {α : Type} (d : List (String × α)) (k : String) (v : α) : List (String × α) :=
  match d with
  | [] => [(k, v)]
  | (n, w) :: rest => if n = k then (n, v) :: rest else (n, w) :: setA rest k v

theorem lookupA_setA_self {α : Type} (d : List (String × α)) (k : String) (v : α) :
    lookupA (setA d k v) k = some v := by
  induction d with
  | nil => simp [setA, lookupA]
  | cons hd tl ih =>
    by_cases h : hd.1 = k <;> simp [setA, lookupA, h, ih]

/-- Bumping one entry of a defaultdict by c (as measured by g) raises the sum
of g over all entries by exactly c, provided the default measures 0. -/
theorem updA_sum {α : Type} (g : α → Nat) (d : List (String × α)) (k : String)
    (dflt : α) (f : α → α) (c : Nat) (hf : ∀ v, g (f v) = g v + c) (h0 : g dflt = 0) :
    ((updA d k dflt f).map (fun p => g p.2)).sum = ((d.map (fun p => g p.2)).sum) + c := by
  induction d with
  | nil => simp [updA, hf, h0]
  | cons hd tl ih =>
    obtain ⟨n, v⟩ := hd
    by_cases h : n = k
    · subst h
      simp [updA, hf]
      omega
    · simp [updA, h, ih]
      omega

/-- lookupA after mapping each value with a key-dependent function. -/
theorem lookupA_map {α β : Type} (d : List (String × α)) (f : String → α → β)
    (k : String) :
    lookupA (d.map (fun p => (p.1, f p.1 p.2))) k = (lookupA d k).map (f k) := by
  induction d with
  | nil => simp [lookupA]
  | cons hd tl ih =>
    by_cases h : hd.1 = k
    · simp [lookupA, h]
    · simp [lookupA, h, ih]

/-- lookupA over a list of entries whose value is a function of the key alone. -/
theorem lookupA_self_map {β : Type} (l : List String) (f : String → β) (k : String)
    (hk : k ∈ l) :
    lookupA (l.map (fun m => (m, f m))) k = some (f k) := by
  induction l with
  | nil => cases hk
  | cons hd tl ih =>
    by_cases h : hd = k
    · simp [lookupA, h]
    · have : k ∈ tl := by
        rcases List.mem_cons.mp hk with h1 | h1
        · exact absurd h1.symm h
        · exact h1
      simp [lookupA, h, ih this]

/-- Fold invariance: a property preserved by each step holds after folding a
whole stream of inputs. -/
theorem foldl_inv {σ ι : Type} {P : σ → Prop} (step : σ → ι → σ)
    (hstep : ∀ s f, P s → P (step s f)) :
    ∀ (l : List ι) (s : σ), P s → P (l.foldl step s) := by
  intro l
  induction l with
  | nil => intro s hs; exact hs
  | cons hd tl ih => intro s hs; exact ih (step s hd) (hstep s hd hs)

/-! ## Module resolver (utils/module_detector.py) -/

/-- A declared module: identity is (name, path). -/
structure PyModule where
  name : String
  path : String
deriving Repr, DecidableEq

/-- Python str.startswith: pre is a prefix of s (character-wise). -/
def strStartsWith (s pre : String) : Bool :=
  pre.data.isPrefixOf s.data

/-- ModuleDetector.get_module_for_file, computation part: walk the declared
module list in order and return the first module whose declared path is a
prefix of the relative path of the file; otherwise the synthetic module root. -/
def getModuleForFile (modules : List PyModule) (relPath : String) : String :=
  match modules with
  | [] => "root"
  | m :: rest =>
    if strStartsWith relPath m.path then m.name else getModuleForFile rest relPath

/-- ModuleDetector.get_module_for_file with its memoization cache
(the _file_to_module_cache dictionary): look the path up in the cache first,
else compute and store.  Returns the answer and the updated cache. -/
def getModuleForFileCached (modules : List PyModule)
    (cache : List (String × String)) (relPath : String) :
    String × List (String × String) :=
  match lookupA cache relPath with
  | some v => (v, cache)
  | none =>
    let v := getModuleForFile modules relPath
    (v, setA cache relPath v)

/-- Modelled from the spec sentence of claim C2 for comparison: the module
whose declared path string is the longest prefix of the file's relative path
among all matching modules, root when no module path is a prefix. -/
def getModuleForFileLongest (modules : List PyModule) (relPath : String) : String :=
  let best := modules.foldl
    (fun (acc : Option PyModule) m =>
      if strStartsWith relPath m.path then
        match acc with
        | none => some m
        | some b => if m.path.length > b.path.length then some m else acc
      else acc)
    none
  match best with
  | some m => m.name
  | none => "root"

/-! ## Complexity analyzer (analyzers/complexity.py) -/

/-- One block reported by the complexity oracle (radon cc_visit): a function or
method with its cyclomatic complexity, line and optional enclosing class. -/
structure CxBlock where
  name : String
  complexity : Nat
  lineno : Nat
  classname : Option String
deriving Repr, DecidableEq

/-- One input file for the complexity analyzer: path, module, and the blocks
the oracle extracted (a skipped or empty file contributes no blocks). -/
structure CxFileInput where
  file : String
  module : String
  blocks : List CxBlock
deriving Repr, DecidableEq

/-- ComplexityAnalyzer._categorize_complexity. -/
def categorizeComplexity (c : Nat) : String :=
  if c ≤ 5 then "simple"
  else if c ≤ 10 then "moderate"
  else if c ≤ 20 then "complex"
  else "very_complex"

/-- One entry of the functions list of a per-file complexity result. -/
structure CxFuncInfo where
  name : String
  complexity : Nat
  category : String
  line : Nat
  is_method : Bool
  class_name : Option String
deriving Repr, DecidableEq

/-- One entry of the global high_complexity_functions list. -/
structure CxHighEntry where
  function : String
  module : String
  file : String
  line : Nat
  complexity : Nat
  category : String
  class_name : Option String
deriving Repr, DecidableEq

/-- The per-file results returned by _process_complexity_blocks. -/
structure CxFileResults where
  file : String
  module : String
  function_count : Nat
  avg_complexity : ℚ
  max_complexity : Nat
  max_complexity_function : Option String
  functions : List CxFuncInfo
deriving Repr, DecidableEq

/-- The global max_complexity_function record. -/
structure CxMaxFunc where
  name : Option String
  file : String
  module : String
  complexity : Nat
deriving Repr, DecidableEq

/-- The four-bucket complexity distribution histogram. -/
structure CxDistribution where
  simple_1_5 : Nat
  moderate_6_10 : Nat
  complex_11_20 : Nat
  very_complex_21_plus : Nat
deriving Repr, DecidableEq

/-- One by_module entry of the complexity accumulator (complexity_sum is
internal and is deleted by finalize). -/
structure CxModStats where
  total_functions : Nat
  avg_complexity : ℚ
  max_complexity : Nat
  high_complexity_count : Nat
  complexity_sum : Nat
deriving Repr, DecidableEq

/-- The defaultdict default for a by_module entry. -/
def CxModStats.init : CxModStats := ⟨0, 0, 0, 0, 0⟩

/-- One per_file entry. -/
structure CxPerFile where
  file : String
  module : String
  avg_complexity : ℚ
  max_complexity : Nat
  function_count : Nat
deriving Repr, DecidableEq

/-- The complexity analyzer's accumulator (self.results). -/
structure CxState where
  total_functions : Nat
  avg_complexity : ℚ
  max_complexity : Nat
  max_complexity_function : Option CxMaxFunc
  distribution : CxDistribution
  by_module : List (String × CxModStats)
  high_complexity_functions : List CxHighEntry
  per_file : List CxPerFile
deriving Repr, DecidableEq

/-- The accumulator as built by ComplexityAnalyzer.__init__. -/
def cxInit : CxState := ⟨0, 0, 0, none, ⟨0, 0, 0, 0⟩, [], [], []⟩

/-- The max-tracking accumulation of the loop in _process_complexity_blocks
(strictly greater complexity replaces the running max and its owner). -/
def cxMaxOf (blocks : List CxBlock) : Nat × Option String :=
  blocks.foldl
    (fun acc b => if b.complexity > acc.1 then (b.complexity, some b.name) else acc)
    (0, none)

/-- The func_info record built for each block. -/
def cxFuncInfoOf (b : CxBlock) : CxFuncInfo :=
  { name := b.name, complexity := b.complexity,
    category := categorizeComplexity b.complexity, line := b.lineno,
    is_method := b.classname.isSome, class_name := b.classname }

/-- The high_complexity_functions entry appended for a block over threshold. -/
def cxHighEntryOf (fp mod : String) (b : CxBlock) : CxHighEntry :=
  { function := b.name, module := mod, file := fp, line := b.lineno,
    complexity := b.complexity, category := categorizeComplexity b.complexity,
    class_name := b.classname }

/-- ComplexityAnalyzer._process_complexity_blocks: the per-file results, and
the high-complexity entries the same loop appends to the analyzer state. -/
def cxProcessBlocks (threshold : Nat) (fp mod : String) (blocks : List CxBlock) :
    CxFileResults × List CxHighEntry :=
  let functions := blocks.map cxFuncInfoOf
  let complexity_sum := (blocks.map (fun b => b.complexity)).sum
  let mx := cxMaxOf blocks
  ({ file := fp, module := mod, function_count := functions.length,
     avg_complexity :=
       if functions.length ≠ 0 then (complexity_sum : ℚ) / functions.length else 0,
     max_complexity := mx.1, max_complexity_function := mx.2,
     functions := functions },
   (blocks.filter (fun b => b.complexity > threshold)).map (cxHighEntryOf fp mod))

/-- The distribution bump for one function's category. -/
def cxBumpDistribution (d : CxDistribution) (category : String) : CxDistribution :=
  if category = "simple" then { d with simple_1_5 := d.simple_1_5 + 1 }
  else if category = "moderate" then { d with moderate_6_10 := d.moderate_6_10 + 1 }
  else if category = "complex" then { d with complex_11_20 := d.complex_11_20 + 1 }
  else if category = "very_complex" then
    { d with very_complex_21_plus := d.very_complex_21_plus + 1 }
  else d

/-- The mutation of one by_module entry performed by _update_results. -/
def cxModUpdate (threshold : Nat) (fr : CxFileResults) (s : CxModStats) : CxModStats :=
  let s1 := { s with
    total_functions := s.total_functions + fr.function_count,
    complexity_sum :=
      s.complexity_sum + (fr.functions.map (fun f : CxFuncInfo => f.complexity)).sum }
  let s2 := if fr.max_complexity > s1.max_complexity then
      { s1 with max_complexity := fr.max_complexity }
    else s1
  { s2 with high_complexity_count := s2.high_complexity_count +
      (fr.functions.filter (fun f : CxFuncInfo => f.complexity > threshold)).length }

/-- ComplexityAnalyzer._update_results. -/
def cxUpdateResults (threshold : Nat) (st : CxState) (fr : CxFileResults)
    (mod : String) : CxState :=
  if fr.functions = [] then st
  else
    let st1 := { st with total_functions := st.total_functions + fr.function_count }
    let st2 := if fr.max_complexity > st1.max_complexity then
        { st1 with
          max_complexity := fr.max_complexity
          max_complexity_function :=
            some ⟨fr.max_complexity_function, fr.file, mod, fr.max_complexity⟩ }
      else st1
    let st3 := { st2 with
      distribution := fr.functions.foldl
        (fun d (f : CxFuncInfo) => cxBumpDistribution d f.category) st2.distribution }
    let st4 := { st3 with
      by_module := updA st3.by_module mod CxModStats.init (cxModUpdate threshold fr) }
    { st4 with per_file := st4.per_file ++
        [(⟨fr.file, mod, fr.avg_complexity, fr.max_complexity, fr.function_count⟩ :
          CxPerFile)] }

/-- ComplexityAnalyzer.analyze_file, given the blocks the oracle reports for
the file (a file with no blocks is returned early, leaving state untouched). -/
def cxAnalyzeFile (threshold : Nat) (st : CxState) (f : CxFileInput) : CxState :=
  if f.blocks = [] then st
  else
    let pr := cxProcessBlocks threshold f.file f.module f.blocks
    let st' := { st with
      high_complexity_functions := st.high_complexity_functions ++ pr.2 }
    cxUpdateResults threshold st' pr.1 f.module

/-- One full pass of the complexity analyzer over a stream of files. -/
def cxRun (threshold : Nat) (files : List CxFileInput) : CxState :=
  files.foldl (cxAnalyzeFile threshold) cxInit

/-- A finalized by_module entry (complexity_sum deleted). -/
structure CxModFinal where
  total_functions : Nat
  avg_complexity : ℚ
  max_complexity : Nat
  high_complexity_count : Nat
deriving Repr, DecidableEq

/-- The finalized complexity results. -/
structure CxFinal where
  total_functions : Nat
  avg_complexity : ℚ
  max_complexity : Nat
  max_complexity_function : Option CxMaxFunc
  distribution : CxDistribution
  by_module : List (String × CxModFinal)
  high_complexity_functions : List CxHighEntry
  per_file : List CxPerFile
deriving Repr, DecidableEq

/-- The finalize mutation of one complexity by_module entry: the module
average from its own running sum when it has functions, then the sum deleted. -/
def cxModFinalize (v : CxModStats) : CxModFinal :=
  { total_functions := v.total_functions,
    avg_complexity :=
      if v.total_functions > 0 then (v.complexity_sum : ℚ) / (v.total_functions : ℚ)
      else v.avg_complexity,
    max_complexity := v.max_complexity,
    high_complexity_count := v.high_complexity_count }

/-- ComplexityAnalyzer.finalize_results: the overall average from the module
complexity sums, each module's average from its own sum (the sum is then
deleted), and the high-complexity list sorted by complexity descending. -/
def cxFinalize (st : CxState) : CxFinal :=
  { total_functions := st.total_functions,
    avg_complexity :=
      if st.total_functions > 0 then
        ((st.by_module.map (fun p => p.2.complexity_sum)).sum : ℚ) / st.total_functions
      else st.avg_complexity,
    max_complexity := st.max_complexity,
    max_complexity_function := st.max_complexity_function,
    distribution := st.distribution,
    by_module := st.by_module.map (fun p => (p.1, cxModFinalize p.2)),
    high_complexity_functions :=
      st.high_complexity_functions.mergeSort
        (fun a b => decide (b.complexity ≤ a.complexity)),
    per_file := st.per_file }

/-! ## Code smells analyzer (analyzers/code_smells.py) -/

/-- One function of a file as the AST utilities report it: line count, the
parameter name list and the maximum nesting depth. -/
structure SmellFunc where
  name : String
  lineno : Nat
  lines : Nat
  params : List String
  nesting : Nat
deriving Repr, DecidableEq

/-- One input file for the code-smells analyzer (parse_ok false models a file
the AST parser rejects, which is skipped). -/
structure SmellFileInput where
  file : String
  module : String
  parse_ok : Bool
  functions : List SmellFunc
deriving Repr, DecidableEq

/-- One long_methods entry. -/
structure LongMethodEntry where
  function : String
  sloc : Nat
  line : Nat
  module : String
deriving Repr, DecidableEq

/-- One long_parameter_lists entry. -/
structure LongParamEntry where
  function : String
  parameters : Nat
  param_names : List String
  line : Nat
  module : String
deriving Repr, DecidableEq

/-- One deep_nesting entry. -/
structure DeepNestEntry where
  function : String
  max_depth : Nat
  line : Nat
  module : String
deriving Repr, DecidableEq

/-- One by_module entry of the code-smells accumulator. -/
structure SmModStats where
  long_methods : Nat
  long_parameter_lists : Nat
  deep_nesting : Nat
  total_smells : Nat
deriving Repr, DecidableEq

/-- The defaultdict default for a code-smells by_module entry. -/
def SmModStats.init : SmModStats := ⟨0, 0, 0, 0⟩

/-- The code-smells accumulator (duplicate_code is a declared but permanently
empty placeholder, so its entry type is irrelevant). -/
structure SmState where
  total_smells : Nat
  by_module : List (String × SmModStats)
  long_methods : List LongMethodEntry
  long_parameter_lists : List LongParamEntry
  deep_nesting : List DeepNestEntry
  duplicate_code : List Unit
deriving Repr, DecidableEq

/-- The accumulator as built by CodeSmellsAnalyzer.__init__. -/
def smInit : SmState := ⟨0, [], [], [], [], []⟩

/-- The by_module mutation of _track_smell for a long_method smell. -/
def smBumpLongMethod (s : SmModStats) : SmModStats :=
  { s with long_methods := s.long_methods + 1, total_smells := s.total_smells + 1 }

/-- The by_module mutation of _track_smell for a long_parameter_list smell. -/
def smBumpLongParam (s : SmModStats) : SmModStats :=
  { s with long_parameter_lists := s.long_parameter_lists + 1,
           total_smells := s.total_smells + 1 }

/-- The by_module mutation of _track_smell for a deep_nesting smell. -/
def smBumpDeepNest (s : SmModStats) : SmModStats :=
  { s with deep_nesting := s.deep_nesting + 1, total_smells := s.total_smells + 1 }

/-- CodeSmellsAnalyzer._track_smell for a long_method smell: append to the
global list, bump total_smells, the module's long_methods count and the
module's total_smells, all in one step. -/
def smTrackLongMethod (st : SmState) (e : LongMethodEntry) : SmState :=
  { st with
    long_methods := st.long_methods ++ [e]
    total_smells := st.total_smells + 1
    by_module := updA st.by_module e.module SmModStats.init smBumpLongMethod }

/-- CodeSmellsAnalyzer._track_smell for a long_parameter_list smell. -/
def smTrackLongParam (st : SmState) (e : LongParamEntry) : SmState :=
  { st with
    long_parameter_lists := st.long_parameter_lists ++ [e]
    total_smells := st.total_smells + 1
    by_module := updA st.by_module e.module SmModStats.init smBumpLongParam }

/-- CodeSmellsAnalyzer._track_smell for a deep_nesting smell. -/
def smTrackDeepNest (st : SmState) (e : DeepNestEntry) : SmState :=
  { st with
    deep_nesting := st.deep_nesting ++ [e]
    total_smells := st.total_smells + 1
    by_module := updA st.by_module e.module SmModStats.init smBumpDeepNest }

/-- The three independent checks run on one function by analyze_file_content. -/
def smAnalyzeFunc (fsize pthr nthr : Nat) (mod : String) (st : SmState)
    (fn : SmellFunc) : SmState :=
  let st1 := if fn.lines > fsize then
      smTrackLongMethod st ⟨fn.name, fn.lines, fn.lineno, mod⟩
    else st
  let st2 := if fn.params.length > pthr then
      smTrackLongParam st1 ⟨fn.name, fn.params.length, fn.params, fn.lineno, mod⟩
    else st1
  if fn.nesting > nthr then
    smTrackDeepNest st2 ⟨fn.name, fn.nesting, fn.lineno, mod⟩
  else st2

/-- CodeSmellsAnalyzer.analyze_file_content: an unparsable or function-free
file leaves the accumulator untouched. -/
def smAnalyzeFile (fsize pthr nthr : Nat) (st : SmState) (f : SmellFileInput) :
    SmState :=
  if ¬ f.parse_ok then st
  else if f.functions = [] then st
  else f.functions.foldl (smAnalyzeFunc fsize pthr nthr f.module) st

/-- One full pass of the code-smells analyzer over a stream of files. -/
def smRun (fsize pthr nthr : Nat) (files : List SmellFileInput) : SmState :=
  files.foldl (smAnalyzeFile fsize pthr nthr) smInit

/-- CodeSmellsAnalyzer.finalize_results: sort each smell list by its severity
metric descending; counts are unchanged. -/
def smFinalize (st : SmState) : SmState :=
  { st with
    long_methods := st.long_methods.mergeSort (fun a b => decide (b.sloc ≤ a.sloc))
    long_parameter_lists := st.long_parameter_lists.mergeSort
      (fun a b => decide (b.parameters ≤ a.parameters))
    deep_nesting := st.deep_nesting.mergeSort
      (fun a b => decide (b.max_depth ≤ a.max_depth)) }

/-! ## Database coupling analyzer (analyzers/db_coupling.py) -/

/-- The fixed read-operation name set. -/
def READ_OPERATIONS : List String :=
  ["find", "find_one", "aggregate", "count", "count_documents", "distinct",
   "find_one_and_update", "find_one_and_replace", "find_one_and_delete",
   "select", "query", "get"]

/-- The fixed write-operation name set. -/
def WRITE_OPERATIONS : List String :=
  ["insert", "insert_one", "insert_many", "update", "update_one", "update_many",
   "replace_one", "delete", "delete_one", "delete_many", "create_index", "drop",
   "drop_index", "save", "remove", "insert_update"]

/-- One raw match of the compiled db-operation pattern in a file line (the
regex itself is the out-of-scope pattern matcher): the captured collection and
operation names, the line number and the stripped line text. -/
structure DbMatch where
  collection : String
  operation : String
  line : Nat
  snippet : String
deriving Repr, DecidableEq

/-- One operation record produced by _extract_operations. -/
structure DbOp where
  collection : String
  operation : String
  type : String
  line : Nat
  code_snippet : String
deriving Repr, DecidableEq

/-- DatabaseCouplingAnalyzer._extract_operations over the regex matches:
the type is read when the operation name is in READ_OPERATIONS, else write. -/
def dbExtractOperations (ms : List DbMatch) : List DbOp :=
  ms.map (fun m =>
    { collection := m.collection, operation := m.operation,
      type := if m.operation ∈ READ_OPERATIONS then "read" else "write",
      line := m.line, code_snippet := m.snippet })

/-- The configuration the db-coupling analyzer reads: the service name and
the table-ownership table. -/
structure DbConfig where
  service_name : String
  table_ownership : List (String × List String)
deriving Repr, DecidableEq

/-- DatabaseCouplingAnalyzer._get_ownership. -/
def dbGetOwnership (cfg : DbConfig) (collection : String) : String :=
  let own_tables := (lookupA cfg.table_ownership cfg.service_name).getD []
  if collection ∈ own_tables then "own"
  else
    let shared_tables := (lookupA cfg.table_ownership "shared").getD []
    if collection ∈ shared_tables then "shared" else "other"

/-- One violation record of a per-file result. -/
structure DbViolation where
  type : String
  severity : String
  collection : String
  operation : String
  line : Nat
  code_snippet : String
deriving Repr, DecidableEq

/-- Python set insertion, kept in first-insertion order (Python set iteration
order is unspecified; no claim depends on it). -/
def addSet (l : List String) (x : String) : List String :=
  if x ∈ l then l else l ++ [x]

/-- The per-file results built by _categorize_operations and completed by
analyze_file (file, module, has_mixed_logic, has_db_import are filled in by
analyze_file after categorization). -/
structure DbCatResults where
  total_operations : Nat
  reads : Nat
  writes : Nat
  collections : List String
  own_operations : Nat
  shared_operations : Nat
  other_reads : Nat
  other_writes : Nat
  operations_by_collection : List (String × (Nat × Nat))
  violations : List DbViolation
  severity_score : Nat
  file : String
  module : String
  has_mixed_logic : Bool
  has_db_import : Bool
deriving Repr, DecidableEq

/-- The loop body of _categorize_operations for one operation. -/
def dbCatStep (cfg : DbConfig) (r : DbCatResults) (op : DbOp) : DbCatResults :=
  let r1 := { r with collections := addSet r.collections op.collection }
  let r2 := if op.type = "read" then { r1 with reads := r1.reads + 1 }
    else { r1 with writes := r1.writes + 1 }
  let r3 := { r2 with
    operations_by_collection := updA r2.operations_by_collection op.collection (0, 0)
      (fun p => if op.type = "read" then (p.1 + 1, p.2) else (p.1, p.2 + 1)) }
  match dbGetOwnership cfg op.collection with
  | "own" => { r3 with own_operations := r3.own_operations + 1 }
  | "shared" => { r3 with shared_operations := r3.shared_operations + 1 }
  | "other" =>
    if op.type = "read" then
      { r3 with
        other_reads := r3.other_reads + 1
        violations := r3.violations ++
          [⟨"read", "warning", op.collection, op.operation, op.line, op.code_snippet⟩] }
    else
      { r3 with
        other_writes := r3.other_writes + 1
        violations := r3.violations ++
          [⟨"write", "critical", op.collection, op.operation, op.line, op.code_snippet⟩] }
  | _ => r3

/-- DatabaseCouplingAnalyzer._categorize_operations (module_name is accepted
but unused by the source function). -/
def dbCategorizeOperations (cfg : DbConfig) (ops : List DbOp) (_mod : String) :
    DbCatResults :=
  let r0 : DbCatResults :=
    { total_operations := ops.length, reads := 0, writes := 0, collections := [],
      own_operations := 0, shared_operations := 0, other_reads := 0,
      other_writes := 0, operations_by_collection := [], violations := [],
      severity_score := 0, file := "", module := "", has_mixed_logic := false,
      has_db_import := false }
  let r := ops.foldl (dbCatStep cfg) r0
  { r with severity_score := r.other_reads * 1 + r.other_writes * 5 }

/-- One mixed_logic_files entry. -/
structure MixedLogicEntry where
  file : String
  module : String
  operations_count : Nat
deriving Repr, DecidableEq

/-- One by_module entry of the db-coupling accumulator. -/
structure DbModStats where
  total_operations : Nat
  severity_score : Nat
  violations_write : Nat
  violations_read : Nat
  own_operations : Nat
  other_operations : Nat
  mixed_logic_count : Nat
deriving Repr, DecidableEq

/-- The defaultdict default for a db-coupling by_module entry. -/
def DbModStats.init : DbModStats := ⟨0, 0, 0, 0, 0, 0, 0⟩

/-- One collections_accessed entry. -/
structure DbCollStats where
  reads : Nat
  writes : Nat
  ownership : String
  accessed_by_modules : List String
deriving Repr, DecidableEq

/-- One top_coupled_files entry. -/
structure DbTopEntry where
  file : String
  module : String
  total_operations : Nat
  reads : Nat
  writes : Nat
  collections : List String
  severity_score : Nat
  violations : Nat
deriving Repr, DecidableEq

/-- One entry of the global violations list (the per-file violation plus the
file and module it came from). -/
structure DbViolationGlobal where
  type : String
  severity : String
  collection : String
  operation : String
  line : Nat
  code_snippet : String
  file : String
  module : String
deriving Repr, DecidableEq

/-- The db-coupling accumulator (self.results). -/
structure DbState where
  total_operations : Nat
  total_files : Nat
  total_files_with_db : Nat
  severity_score : Nat
  collections_accessed : List (String × DbCollStats)
  mixed_logic_files : List MixedLogicEntry
  by_module : List (String × DbModStats)
  top_coupled_files : List DbTopEntry
  violations : List DbViolationGlobal
deriving Repr, DecidableEq

/-- The accumulator as built by DatabaseCouplingAnalyzer.__init__. -/
def dbInit : DbState := ⟨0, 0, 0, 0, [], [], [], [], []⟩

/-- The collections_accessed update of _update_results for one collection of
the analyzed file. -/
def dbCollStep (cfg : DbConfig) (fr : DbCatResults) (mod : String)
    (acc : List (String × DbCollStats)) (collection : String) :
    List (String × DbCollStats) :=
  let acc1 := match lookupA acc collection with
    | some _ => acc
    | none => acc ++ [(collection, ⟨0, 0, dbGetOwnership cfg collection, []⟩)]
  let ops := (lookupA fr.operations_by_collection collection).getD (0, 0)
  updA acc1 collection ⟨0, 0, "", []⟩ (fun c =>
    { c with reads := c.reads + ops.1, writes := c.writes + ops.2,
             accessed_by_modules := addSet c.accessed_by_modules mod })

/-- The by_module mutation performed by _update_results. -/
def dbModUpdate (fr : DbCatResults) (m : DbModStats) : DbModStats :=
  { m with
    total_operations := m.total_operations + fr.total_operations
    severity_score := m.severity_score + fr.severity_score
    violations_write := m.violations_write + fr.other_writes
    violations_read := m.violations_read + fr.other_reads
    own_operations := m.own_operations + fr.own_operations
    other_operations := m.other_operations + (fr.other_reads + fr.other_writes) }

/-- DatabaseCouplingAnalyzer._update_results. -/
def dbUpdateResults (cfg : DbConfig) (st : DbState) (fr : DbCatResults)
    (mod : String) : DbState :=
  let st1 := { st with
    total_operations := st.total_operations + fr.total_operations
    severity_score := st.severity_score + fr.severity_score }
  let st2 := { st1 with
    by_module := updA st1.by_module mod DbModStats.init (dbModUpdate fr) }
  let st3 := { st2 with
    collections_accessed :=
      fr.collections.foldl (dbCollStep cfg fr mod) st2.collections_accessed }
  let st4 := { st3 with
    top_coupled_files := st3.top_coupled_files ++
      [(⟨fr.file, mod, fr.total_operations, fr.reads, fr.writes, fr.collections,
         fr.severity_score, fr.violations.length⟩ : DbTopEntry)] }
  { st4 with
    violations := st4.violations ++ fr.violations.map (fun v =>
      (⟨v.type, v.severity, v.collection, v.operation, v.line, v.code_snippet,
        fr.file, mod⟩ : DbViolationGlobal)) }

/-- One input file for the db-coupling analyzer: the raw pattern matches, the
db-import flag, and how many of the nine business-logic indicator patterns
match the content (the indicators themselves are regexes over raw text). -/
structure DbFileInput where
  file : String
  module : String
  regex_matches : List DbMatch
  has_db_import : Bool
  business_logic_matches : Nat
deriving Repr, DecidableEq

/-- DatabaseCouplingAnalyzer._detect_mixed_logic: at least 2 of the 9
business-logic indicators match. -/
def dbDetectMixedLogic (business_logic_matches : Nat) : Bool :=
  business_logic_matches ≥ 2

/-- The by_module mixed_logic_count bump performed by analyze_file. -/
def dbBumpMixed (m : DbModStats) : DbModStats :=
  { m with mixed_logic_count := m.mixed_logic_count + 1 }

/-- DatabaseCouplingAnalyzer.analyze_file: a file with no operation matches is
returned early, before the file counter, the mixed-logic check and every other
accumulator update. -/
def dbAnalyzeFile (cfg : DbConfig) (st : DbState) (f : DbFileInput) : DbState :=
  let ops := dbExtractOperations f.regex_matches
  if ops = [] then st
  else
    let stA := { st with total_files_with_db := st.total_files_with_db + 1 }
    let fr0 := dbCategorizeOperations cfg ops f.module
    let fr1 := { fr0 with file := f.file }
    let hasMixed := dbDetectMixedLogic f.business_logic_matches
    let stB := if hasMixed then
        { stA with
          mixed_logic_files := stA.mixed_logic_files ++ [⟨f.file, f.module, ops.length⟩]
          by_module := updA stA.by_module f.module DbModStats.init dbBumpMixed }
      else stA
    let fr2 := { fr1 with module := f.module, has_mixed_logic := hasMixed,
                          has_db_import := f.has_db_import }
    dbUpdateResults cfg stB fr2 f.module

/-- One full pass of the db-coupling analyzer over a stream of files. -/
def dbRun (cfg : DbConfig) (files : List DbFileInput) : DbState :=
  files.foldl (dbAnalyzeFile cfg) dbInit

/-- DatabaseCouplingAnalyzer.finalize_results: sort top_coupled_files by
severity descending and keep the top 20; counts are unchanged. -/
def dbFinalize (st : DbState) : DbState :=
  { st with
    top_coupled_files := (st.top_coupled_files.mergeSort
      (fun a b => decide (b.severity_score ≤ a.severity_score))).take 20 }

/-! ## Claim C1: global counts are module sums -/

theorem cxModUpdate_total_functions (threshold : Nat) (fr : CxFileResults)
    (v : CxModStats) :
    (cxModUpdate threshold fr v).total_functions =
      v.total_functions + fr.function_count := by
  unfold cxModUpdate
  dsimp only
  split <;> rfl

theorem cxUpdateResults_counts (threshold : Nat) (st : CxState)
    (fr : CxFileResults) (mod : String) (hf : ¬ fr.functions = []) :
    (cxUpdateResults threshold st fr mod).total_functions =
        st.total_functions + fr.function_count ∧
    (cxUpdateResults threshold st fr mod).by_module =
        updA st.by_module mod CxModStats.init (cxModUpdate threshold fr) := by
  unfold cxUpdateResults
  rw [if_neg hf]
  dsimp only
  split <;> exact ⟨rfl, rfl⟩

/-- The complexity invariant: the global function count always equals the sum
of the per-module function counts. -/
def CxCountInv (st : CxState) : Prop :=
  st.total_functions = (st.by_module.map (fun p => p.2.total_functions)).sum

theorem cxAnalyzeFile_count_inv (threshold : Nat) (st : CxState) (f : CxFileInput)
    (h : CxCountInv st) : CxCountInv (cxAnalyzeFile threshold st f) := by
  unfold CxCountInv at h ⊢
  unfold cxAnalyzeFile
  dsimp only
  by_cases hb : f.blocks = []
  · rw [if_pos hb]; exact h
  · rw [if_neg hb]
    set fr := (cxProcessBlocks threshold f.file f.module f.blocks).1 with hfr
    by_cases hf : fr.functions = []
    · unfold cxUpdateResults
      rw [if_pos hf]
      exact h
    · obtain ⟨e1, e2⟩ := cxUpdateResults_counts threshold
        { st with high_complexity_functions := st.high_complexity_functions ++
            (cxProcessBlocks threshold f.file f.module f.blocks).2 } fr f.module hf
      rw [e1, e2]
      have A := updA_sum (fun s : CxModStats => s.total_functions) st.by_module
        f.module CxModStats.init (cxModUpdate threshold fr) fr.function_count
        (cxModUpdate_total_functions threshold fr) rfl
      simp only at A h ⊢
      rw [A]
      omega

theorem cxRun_count_inv (threshold : Nat) (files : List CxFileInput) :
    CxCountInv (cxRun threshold files) := by
  exact foldl_inv (cxAnalyzeFile threshold)
    (fun s f hs => cxAnalyzeFile_count_inv threshold s f hs) files cxInit rfl

/-- The db-coupling invariant: the global operation count and severity score
always equal the sums of the per-module values. -/
def DbCountInv (st : DbState) : Prop :=
  st.total_operations = (st.by_module.map (fun p => p.2.total_operations)).sum ∧
  st.severity_score = (st.by_module.map (fun p => p.2.severity_score)).sum

theorem dbUpdateResults_counts (cfg : DbConfig) (st : DbState)
    (fr : DbCatResults) (mod : String) :
    (dbUpdateResults cfg st fr mod).total_operations =
        st.total_operations + fr.total_operations ∧
    (dbUpdateResults cfg st fr mod).severity_score =
        st.severity_score + fr.severity_score ∧
    (dbUpdateResults cfg st fr mod).by_module =
        updA st.by_module mod DbModStats.init (dbModUpdate fr) := by
  unfold dbUpdateResults
  exact ⟨rfl, rfl, rfl⟩

theorem dbAnalyzeFile_count_inv (cfg : DbConfig) (st : DbState) (f : DbFileInput)
    (h : DbCountInv st) : DbCountInv (dbAnalyzeFile cfg st f) := by
  obtain ⟨h1, h2⟩ := h
  unfold DbCountInv
  unfold dbAnalyzeFile
  dsimp only
  by_cases hb : dbExtractOperations f.regex_matches = []
  · rw [if_pos hb]
    exact ⟨h1, h2⟩
  · rw [if_neg hb]
    set ops := dbExtractOperations f.regex_matches with hops
    set fr := dbCategorizeOperations cfg ops f.module with hfr
    have hTot : ∀ (base : DbState) (fr2 : DbCatResults),
        base.total_operations = (base.by_module.map
          (fun p => p.2.total_operations)).sum →
        base.severity_score = (base.by_module.map
          (fun p => p.2.severity_score)).sum →
        DbCountInv (dbUpdateResults cfg base fr2 f.module) := by
      intro base fr2 hb1 hb2
      obtain ⟨e1, e2, e3⟩ := dbUpdateResults_counts cfg base fr2 f.module
      constructor
      · rw [e1, e3]
        have A := updA_sum (fun s : DbModStats => s.total_operations) base.by_module
          f.module DbModStats.init (dbModUpdate fr2) fr2.total_operations
          (fun v => rfl) rfl
        simp only at A hb1 ⊢
        rw [A, hb1]
      · rw [e2, e3]
        have A := updA_sum (fun s : DbModStats => s.severity_score) base.by_module
          f.module DbModStats.init (dbModUpdate fr2) fr2.severity_score
          (fun v => rfl) rfl
        simp only at A hb2 ⊢
        rw [A, hb2]
    by_cases hm : dbDetectMixedLogic f.business_logic_matches = true
    · rw [if_pos hm]
      apply hTot
      · have B := updA_sum (fun s : DbModStats => s.total_operations) st.by_module
          f.module DbModStats.init dbBumpMixed 0 (fun v => rfl) rfl
        simp only at B h1 ⊢
        rw [B, h1]
        omega
      · have B := updA_sum (fun s : DbModStats => s.severity_score) st.by_module
          f.module DbModStats.init dbBumpMixed 0 (fun v => rfl) rfl
        simp only at B h2 ⊢
        rw [B, h2]
        omega
    · rw [if_neg hm]
      exact hTot st _ h1 h2

theorem dbRun_count_inv (cfg : DbConfig) (files : List DbFileInput) :
    DbCountInv (dbRun cfg files) := by
  exact foldl_inv (dbAnalyzeFile cfg)
    (fun s f hs => dbAnalyzeFile_count_inv cfg s f hs) files dbInit ⟨rfl, rfl⟩

/-- The code-smells invariant: the global smell count always equals the sum of
the per-module smell counts. -/
def SmCountInv (st : SmState) : Prop :=
  st.total_smells = (st.by_module.map (fun p => p.2.total_smells)).sum

theorem smTrackLongMethod_count_inv (st : SmState) (e : LongMethodEntry)
    (h : SmCountInv st) : SmCountInv (smTrackLongMethod st e) := by
  unfold SmCountInv at h ⊢
  unfold smTrackLongMethod
  have A := updA_sum (fun s : SmModStats => s.total_smells) st.by_module e.module
    SmModStats.init smBumpLongMethod 1 (fun v => rfl) rfl
  simp only at A h ⊢
  rw [A, h]

theorem smTrackLongParam_count_inv (st : SmState) (e : LongParamEntry)
    (h : SmCountInv st) : SmCountInv (smTrackLongParam st e) := by
  unfold SmCountInv at h ⊢
  unfold smTrackLongParam
  have A := updA_sum (fun s : SmModStats => s.total_smells) st.by_module e.module
    SmModStats.init smBumpLongParam 1 (fun v => rfl) rfl
  simp only at A h ⊢
  rw [A, h]

theorem smTrackDeepNest_count_inv (st : SmState) (e : DeepNestEntry)
    (h : SmCountInv st) : SmCountInv (smTrackDeepNest st e) := by
  unfold SmCountInv at h ⊢
  unfold smTrackDeepNest
  have A := updA_sum (fun s : SmModStats => s.total_smells) st.by_module e.module
    SmModStats.init smBumpDeepNest 1 (fun v => rfl) rfl
  simp only at A h ⊢
  rw [A, h]

theorem smAnalyzeFunc_count_inv (fsize pthr nthr : Nat) (mod : String)
    (st : SmState) (fn : SmellFunc) (h : SmCountInv st) :
    SmCountInv (smAnalyzeFunc fsize pthr nthr mod st fn) := by
  unfold smAnalyzeFunc
  dsimp only
  split
  · apply smTrackDeepNest_count_inv
    split
    · apply smTrackLongParam_count_inv
      split
      · exact smTrackLongMethod_count_inv _ _ h
      · exact h
    · split
      · exact smTrackLongMethod_count_inv _ _ h
      · exact h
  · split
    · apply smTrackLongParam_count_inv
      split
      · exact smTrackLongMethod_count_inv _ _ h
      · exact h
    · split
      · exact smTrackLongMethod_count_inv _ _ h
      · exact h

theorem smRun_count_inv (fsize pthr nthr : Nat) (files : List SmellFileInput) :
    SmCountInv (smRun fsize pthr nthr files) := by
  refine foldl_inv (smAnalyzeFile fsize pthr nthr) ?_ files smInit rfl
  intro s f hs
  unfold smAnalyzeFile
  split
  · exact hs
  · split
    · exact hs
    · exact foldl_inv (smAnalyzeFunc fsize pthr nthr f.module)
        (fun s' fn hs' => smAnalyzeFunc_count_inv fsize pthr nthr f.module s' fn hs')
        f.functions s hs

/-- C1: after finalize, each cited per-file analyzer's global count fields
equal the sums of the corresponding by_module count fields, for every file
stream in every order: the complexity analyzer's total_functions, the
db-coupling analyzer's total_operations and severity_score, and the
code-smells analyzer's total_smells. -/
theorem C1_finalize_global_counts_are_module_sums :
    (∀ (threshold : Nat) (files : List CxFileInput),
      (cxFinalize (cxRun threshold files)).total_functions =
        ((cxFinalize (cxRun threshold files)).by_module.map
          (fun p => p.2.total_functions)).sum) ∧
    (∀ (cfg : DbConfig) (files : List DbFileInput),
      (dbFinalize (dbRun cfg files)).total_operations =
        ((dbFinalize (dbRun cfg files)).by_module.map
          (fun p => p.2.total_operations)).sum ∧
      (dbFinalize (dbRun cfg files)).severity_score =
        ((dbFinalize (dbRun cfg files)).by_module.map
          (fun p => p.2.severity_score)).sum) ∧
    (∀ (fsize pthr nthr : Nat) (files : List SmellFileInput),
      (smFinalize (smRun fsize pthr nthr files)).total_smells =
        ((smFinalize (smRun fsize pthr nthr files)).by_module.map
          (fun p => p.2.total_smells)).sum) := by
  refine ⟨?_, ?_, ?_⟩
  · intro threshold files
    have h := cxRun_count_inv threshold files
    unfold CxCountInv at h
    simp [cxFinalize, List.map_map, Function.comp]
    exact h
  · intro cfg files
    have h := dbRun_count_inv cfg files
    unfold DbCountInv at h
    exact ⟨h.1, h.2⟩
  · intro fsize pthr nthr files
    have h := smRun_count_inv fsize pthr nthr files
    unfold SmCountInv at h
    exact h

/-! ## Claims C6 and C8: db-coupling violations and the empty-match early
return -/

/-- The violation record _categorize_operations emits for one operation
against an other-owned collection: severity warning for a read, critical for
everything else (the write branch). -/
def dbViolationOf (op : DbOp) : DbViolation :=
  if op.type = "read" then
    ⟨"read", "warning", op.collection, op.operation, op.line, op.code_snippet⟩
  else
    ⟨"write", "critical", op.collection, op.operation, op.line, op.code_snippet⟩

theorem dbCatStep_counts (cfg : DbConfig) (r : DbCatResults) (op : DbOp) :
    (dbCatStep cfg r op).violations = r.violations ++
      (if dbGetOwnership cfg op.collection = "other" then [dbViolationOf op] else []) ∧
    (dbCatStep cfg r op).other_reads = r.other_reads +
      (if op.type = "read" ∧ dbGetOwnership cfg op.collection = "other" then 1 else 0) ∧
    (dbCatStep cfg r op).other_writes = r.other_writes +
      (if ¬ op.type = "read" ∧ dbGetOwnership cfg op.collection = "other"
       then 1 else 0) := by
  unfold dbCatStep dbViolationOf
  dsimp only
  by_cases ht : op.type = "read" <;>
    rcases ho : dbGetOwnership cfg op.collection with _ <;>
      split <;> simp_all

theorem dbCatFold_counts (cfg : DbConfig) (ops : List DbOp) (r : DbCatResults) :
    (ops.foldl (dbCatStep cfg) r).violations = r.violations ++
      (ops.filter (fun op =>
        decide (dbGetOwnership cfg op.collection = "other"))).map dbViolationOf ∧
    (ops.foldl (dbCatStep cfg) r).other_reads = r.other_reads +
      (ops.filter (fun op => decide (op.type = "read" ∧
        dbGetOwnership cfg op.collection = "other"))).length ∧
    (ops.foldl (dbCatStep cfg) r).other_writes = r.other_writes +
      (ops.filter (fun op => decide (¬ op.type = "read" ∧
        dbGetOwnership cfg op.collection = "other"))).length := by
  induction ops generalizing r with
  | nil => simp
  | cons op rest ih =>
    obtain ⟨ihv, ihr, ihw⟩ := ih (dbCatStep cfg r op)
    obtain ⟨sv, sr, sw⟩ := dbCatStep_counts cfg r op
    refine ⟨?_, ?_, ?_⟩
    · rw [List.foldl_cons, ihv, sv]
      by_cases ho : dbGetOwnership cfg op.collection = "other" <;> simp [ho]
    · rw [List.foldl_cons, ihr, sr]
      by_cases hro : op.type = "read" ∧ dbGetOwnership cfg op.collection = "other" <;>
        (simp [hro]; try omega)
    · rw [List.foldl_cons, ihw, sw]
      by_cases hwo : ¬ op.type = "read" ∧ dbGetOwnership cfg op.collection = "other" <;>
        (simp [hwo]; try omega)

theorem dbExtract_type_read_or_write (ms : List DbMatch) (op : DbOp)
    (h : op ∈ dbExtractOperations ms) : op.type = "read" ∨ op.type = "write" := by
  unfold dbExtractOperations at h
  obtain ⟨m, _, rfl⟩ := List.mem_map.mp h
  by_cases hr : m.operation ∈ READ_OPERATIONS <;> simp [hr]

/-- C6: every operation against an other-owned collection yields exactly one
violation record, warning for a read and critical for a write, and the file's
severity score is reads-against-other times 1 plus writes-against-other times
5; in particular two such reads and one such write score 7. -/
theorem C6_other_ownership_violations_and_severity :
    (∀ (cfg : DbConfig) (ms : List DbMatch) (mod : String),
      (dbCategorizeOperations cfg (dbExtractOperations ms) mod).violations =
        ((dbExtractOperations ms).filter (fun op =>
          decide (dbGetOwnership cfg op.collection = "other"))).map dbViolationOf ∧
      (dbCategorizeOperations cfg (dbExtractOperations ms) mod).severity_score =
        ((dbExtractOperations ms).filter (fun op => decide (op.type = "read" ∧
          dbGetOwnership cfg op.collection = "other"))).length * 1 +
        ((dbExtractOperations ms).filter (fun op => decide (op.type = "write" ∧
          dbGetOwnership cfg op.collection = "other"))).length * 5) ∧
    (dbCategorizeOperations ⟨"svc", []⟩
      (dbExtractOperations [⟨"users", "find", 1, "db.users.find("⟩,
        ⟨"users", "find", 2, "db.users.find("⟩,
        ⟨"users", "insert", 3, "db.users.insert("⟩]) "m").severity_score = 7 := by
  constructor
  · intro cfg ms mod
    unfold dbCategorizeOperations
    dsimp only
    obtain ⟨hv, hr, hw⟩ := dbCatFold_counts cfg (dbExtractOperations ms)
      { total_operations := (dbExtractOperations ms).length, reads := 0, writes := 0,
        collections := [], own_operations := 0, shared_operations := 0,
        other_reads := 0, other_writes := 0, operations_by_collection := [],
        violations := [], severity_score := 0, file := "", module := "",
        has_mixed_logic := false, has_db_import := false }
    refine ⟨by simpa using hv, ?_⟩
    have hfw : ((dbExtractOperations ms).filter (fun op => decide (¬ op.type = "read" ∧
        dbGetOwnership cfg op.collection = "other"))) =
      ((dbExtractOperations ms).filter (fun op => decide (op.type = "write" ∧
        dbGetOwnership cfg op.collection = "other"))) := by
      apply List.filter_congr
      intro op hop
      rcases dbExtract_type_read_or_write ms op hop with h1 | h1 <;> simp [h1]
    rw [← hfw]
    simp only [hr, hw]
    simp
  · rfl

/-- C8: a file in which the db operation pattern finds zero matches records
nothing at all: analyze_file leaves the accumulator unchanged, in particular
total_files_with_db and mixed_logic_files, even when the file has two or more
business-logic indicators. -/
theorem C8_no_operations_records_nothing (cfg : DbConfig) (st : DbState)
    (f : DbFileInput) (h : f.regex_matches = []) :
    dbAnalyzeFile cfg st f = st := by
  unfold dbAnalyzeFile
  dsimp only
  rw [if_pos (by simp [h, dbExtractOperations])]

/-- C8 witness: a concrete file with five business-logic indicator matches but
no operation matches leaves the initial accumulator untouched. -/
theorem C8_no_operations_records_nothing_witness :
    dbAnalyzeFile ⟨"svc", []⟩ dbInit ⟨"a.py", "m", [], true, 5⟩ = dbInit ∧
    dbDetectMixedLogic 5 = true :=
  ⟨C8_no_operations_records_nothing ⟨"svc", []⟩ dbInit ⟨"a.py", "m", [], true, 5⟩ rfl,
   by decide⟩

/-! ## Module coupling analyzer (analyzers/module_coupling.py)

Python floats are modelled as exact rationals; the decimal boundary literals
0.3 and 0.7 are the rationals 3/10 and 7/10. -/

/-- The import-tracking state of the module-coupling analyzer when
finalize_results runs: the tracked module names in insertion order, the
_imports map (module to the set of modules it imports) and the _imported_by
map, sets kept as duplicate-free lists. -/
structure MCState where
  modules : List String
  imports : List (String × List String)
  importedBy : List (String × List String)
deriving Repr, DecidableEq

/-- Read one adjacency set of a defaultdict-of-sets (empty when absent). -/
def mcSetOf (d : List (String × List String)) (m : String) : List String :=
  (lookupA d m).getD []

/-- Afferent coupling Ca: the size of the imported-by set. -/
def mcCa (st : MCState) (m : String) : Nat := (mcSetOf st.importedBy m).length

/-- Efferent coupling Ce: the size of the imports set. -/
def mcCe (st : MCState) (m : String) : Nat := (mcSetOf st.imports m).length

/-- The instability computation of finalize_results: I = Ce / (Ca + Ce),
0.0 when Ca + Ce is zero. -/
def mcInstability (ca ce : Nat) : ℚ :=
  if ca + ce > 0 then (ce : ℚ) / ((ca : ℚ) + (ce : ℚ)) else 0

/-- The per-module stability_category field, with strict comparisons. -/
def mcStabilityCategory (instability : ℚ) : String :=
  if instability < 0.3 then "stable"
  else if instability > 0.7 then "unstable"
  else "moderate"

/-- One per_module entry of the finalized module-coupling results. -/
structure MCEntry where
  module : String
  afferent_coupling : Nat
  efferent_coupling : Nat
  instability : ℚ
  stability_category : String
  imported_by : List String
  imports : List String
deriving Repr, DecidableEq

/-- The module_info record finalize_results builds for one module. -/
def mcEntryOf (st : MCState) (m : String) : MCEntry :=
  let ca := mcCa st m
  let ce := mcCe st m
  { module := m, afferent_coupling := ca, efferent_coupling := ce,
    instability := mcInstability ca ce,
    stability_category := mcStabilityCategory (mcInstability ca ce),
    imported_by := mcSetOf st.importedBy m,
    imports := mcSetOf st.imports m }

/-- One stable_modules or unstable_modules entry. -/
structure StabEntry where
  module : String
  instability : ℚ
deriving Repr, DecidableEq

/-- One high_fanout_modules entry. -/
structure FanoutEntry where
  module : String
  efferent_coupling : Nat
  dependencies : List String
deriving Repr, DecidableEq

/-- The finalized module-coupling results. -/
structure MCFinal where
  total_modules : Nat
  avg_afferent_coupling : ℚ
  avg_efferent_coupling : ℚ
  avg_instability : ℚ
  per_module : List (String × MCEntry)
  stable_modules : List StabEntry
  unstable_modules : List StabEntry
  high_fanout_modules : List FanoutEntry
  dependency_graph_edges : List (String × String)
deriving Repr, DecidableEq

/-- ModuleCouplingAnalyzer.finalize_results.  The source builds per_module,
the stable, unstable and high-fanout lists and the running totals in one loop
over the tracked modules; that loop is rendered as maps and filters in the
same order, followed by the same sorts.  Membership tests of the stable and
unstable lists use non-strict comparisons, unlike stability_category. -/
def mcFinalize (fanout_threshold : Nat) (st : MCState) : MCFinal :=
  let count := st.modules.length
  { total_modules := st.modules.length,
    avg_afferent_coupling :=
      if count > 0 then ((st.modules.map (mcCa st)).sum : ℚ) / count else 0,
    avg_efferent_coupling :=
      if count > 0 then ((st.modules.map (mcCe st)).sum : ℚ) / count else 0,
    avg_instability :=
      if count > 0 then
        (st.modules.map (fun m => mcInstability (mcCa st m) (mcCe st m))).sum / count
      else 0,
    per_module := st.modules.map (fun m => (m, mcEntryOf st m)),
    stable_modules :=
      ((st.modules.filter (fun m =>
          decide ((mcEntryOf st m).instability ≤ 0.3))).map
        (fun m => (⟨m, (mcEntryOf st m).instability⟩ : StabEntry))).mergeSort
        (fun a b => decide (a.instability ≤ b.instability)),
    unstable_modules :=
      ((st.modules.filter (fun m =>
          decide ((mcEntryOf st m).instability ≥ 0.7))).map
        (fun m => (⟨m, (mcEntryOf st m).instability⟩ : StabEntry))).mergeSort
        (fun a b => decide (b.instability ≤ a.instability)),
    high_fanout_modules :=
      ((st.modules.filter (fun m => decide (mcCe st m > fanout_threshold))).map
        (fun m => (⟨m, mcCe st m, mcSetOf st.imports m⟩ : FanoutEntry))).mergeSort
        (fun a b => decide (b.efferent_coupling ≤ a.efferent_coupling)),
    dependency_graph_edges :=
      st.imports.flatMap (fun p => p.2.map (fun t => (p.1, t))) }

/-- C4: at module-coupling finalize, every tracked module's per_module entry
has instability Ce/(Ca+Ce) (0.0 when Ca+Ce is 0) and a stability_category
decided by strict comparisons against 0.3 and 0.7, while stable_modules and
unstable_modules membership uses the non-strict comparisons; a module with
Ca = Ce = 0 has instability 0.0 and sits in stable_modules, and instability
exactly 0.3 sits in stable_modules yet is categorized moderate. -/
theorem C4_instability_and_stability_boundaries :
    (∀ (thr : Nat) (st : MCState) (m : String), m ∈ st.modules →
      lookupA (mcFinalize thr st).per_module m = some (mcEntryOf st m) ∧
      (mcEntryOf st m).instability =
        (if mcCa st m + mcCe st m > 0
         then (mcCe st m : ℚ) / ((mcCa st m : ℚ) + (mcCe st m : ℚ)) else 0) ∧
      ((⟨m, (mcEntryOf st m).instability⟩ : StabEntry) ∈
          (mcFinalize thr st).stable_modules ↔
        (mcEntryOf st m).instability ≤ 0.3) ∧
      ((⟨m, (mcEntryOf st m).instability⟩ : StabEntry) ∈
          (mcFinalize thr st).unstable_modules ↔
        (mcEntryOf st m).instability ≥ 0.7) ∧
      (mcEntryOf st m).stability_category =
        (if (mcEntryOf st m).instability < 0.3 then "stable"
         else if (mcEntryOf st m).instability > 0.7 then "unstable"
         else "moderate")) ∧
    mcInstability 0 0 = 0 ∧
    mcStabilityCategory 0 = "stable" ∧
    (0 : ℚ) ≤ 0.3 ∧
    mcStabilityCategory (3/10) = "moderate" ∧
    (3/10 : ℚ) ≤ 0.3 := by
  refine ⟨?_, by simp [mcInstability],
    by unfold mcStabilityCategory; rw [if_pos (by norm_num)],
    by norm_num,
    by unfold mcStabilityCategory; rw [if_neg (by norm_num), if_neg (by norm_num)],
    by norm_num⟩
  intro thr st m hm
  refine ⟨?_, ?_, ?_, ?_, ?_⟩
  · unfold mcFinalize
    dsimp only
    exact lookupA_self_map st.modules (mcEntryOf st) m hm
  · simp [mcEntryOf, mcInstability]
  · unfold mcFinalize
    dsimp only
    rw [List.mem_mergeSort]
    constructor
    · intro hmem
      obtain ⟨m2, hm2, heq⟩ := List.mem_map.mp hmem
      have hcond := (List.mem_filter.mp hm2).2
      have : m2 = m := congrArg StabEntry.module heq
      subst this
      have heq2 : (mcEntryOf st m2).instability =
          (⟨m2, (mcEntryOf st m2).instability⟩ : StabEntry).instability := rfl
      simpa using of_decide_eq_true hcond
    · intro hle
      apply List.mem_map.mpr
      refine ⟨m, List.mem_filter.mpr ⟨hm, decide_eq_true hle⟩, rfl⟩
  · unfold mcFinalize
    dsimp only
    rw [List.mem_mergeSort]
    constructor
    · intro hmem
      obtain ⟨m2, hm2, heq⟩ := List.mem_map.mp hmem
      have hcond := (List.mem_filter.mp hm2).2
      have : m2 = m := congrArg StabEntry.module heq
      subst this
      simpa using of_decide_eq_true hcond
    · intro hle
      apply List.mem_map.mpr
      refine ⟨m, List.mem_filter.mpr ⟨hm, decide_eq_true hle⟩, rfl⟩
  · simp [mcEntryOf, mcStabilityCategory]

/-- C4 witness: a two-module state where module a has Ca = Ce = 0 (so
instability 0.0, category stable, member of stable_modules) and module b has
Ca = 7, Ce = 3 (instability exactly 0.3, member of stable_modules yet
categorized moderate). -/
theorem C4_instability_and_stability_boundaries_witness :
    (lookupA (mcFinalize 10 ⟨["a", "b"],
        [("b", ["x", "y", "z"])],
        [("b", ["p", "q", "r", "s", "t", "u", "v"])]⟩).per_module "b" =
      some (mcEntryOf ⟨["a", "b"],
        [("b", ["x", "y", "z"])],
        [("b", ["p", "q", "r", "s", "t", "u", "v"])]⟩ "b")) ∧
    ((⟨"b", (mcEntryOf ⟨["a", "b"],
        [("b", ["x", "y", "z"])],
        [("b", ["p", "q", "r", "s", "t", "u", "v"])]⟩ "b").instability⟩ : StabEntry) ∈
      (mcFinalize 10 ⟨["a", "b"],
        [("b", ["x", "y", "z"])],
        [("b", ["p", "q", "r", "s", "t", "u", "v"])]⟩).stable_modules ↔
      (mcEntryOf ⟨["a", "b"],
        [("b", ["x", "y", "z"])],
        [("b", ["p", "q", "r", "s", "t", "u", "v"])]⟩ "b").instability ≤ 0.3) := by
  have h := C4_instability_and_stability_boundaries.1 10
    ⟨["a", "b"], [("b", ["x", "y", "z"])],
     [("b", ["p", "q", "r", "s", "t", "u", "v"])]⟩ "b" (by decide)
  exact ⟨h.1, h.2.2.1⟩

/-! ## Class metrics analyzer: LCOM (analyzers/class_metrics.py) -/

/-- ClassMetricsAnalyzer._calculate_lcom, over the per-method lists of
referenced self-attribute names and the class's declared attribute set.  The
comparison isolated_count greater than len(methods)/2 is Python float division
of integers, exact here as 2 * isolated_count greater than the length. -/
def calculate_lcom (methods : List (List String)) (attributes : List String) : Nat :=
  if methods = [] ∨ attributes = [] then 1
  else
    let method_attributes :=
      methods.map (fun refs => refs.filter (fun a => decide (a ∈ attributes)))
    if method_attributes.all (fun l => l.isEmpty) then 1
    else
      let isolated_count := (method_attributes.filter (fun l => l.isEmpty)).length
      if isolated_count = methods.length then methods.length
      else if 2 * isolated_count > methods.length then 3
      else if isolated_count > 0 then 2
      else 1

/-- Modelled from the wording of claim C5 for comparison: 1 when the class has
no attributes or no method references any of them, else the cascade on
isolated, the number of methods referencing zero class attributes. -/
def lcomSpecRule (methods : List (List String)) (attributes : List String) : Nat :=
  if attributes = [] ∨ methods.all
      (fun refs => (refs.filter (fun a => decide (a ∈ attributes))).isEmpty) then 1
  else
    let isolated := (methods.filter
      (fun refs => (refs.filter (fun a => decide (a ∈ attributes))).isEmpty)).length
    if isolated = methods.length then methods.length
    else if 2 * isolated > methods.length then 3
    else if isolated > 0 then 2
    else 1

/-- C5: for every analyzed class with at least one method, the computed LCOM
follows exactly the rule stated in the spec (1 with no attributes or no
referencing method, else method_count / 3 / 2 / 1 by the isolated-count
cascade); the class with attributes a, b and methods touching a, a and
nothing yields LCOM 2.  The computation is a pure function of its inputs, so
re-running it on identical input reproduces the same value. -/
theorem C5_lcom_follows_spec_rule :
    (∀ (methods : List (List String)) (attributes : List String),
      methods ≠ [] →
      calculate_lcom methods attributes = lcomSpecRule methods attributes) ∧
    calculate_lcom [["a"], ["a"], []] ["a", "b"] = 2 := by
  constructor
  · intro methods attributes hm
    unfold calculate_lcom lcomSpecRule
    dsimp only
    have hfilter : ((methods.map (fun refs =>
        refs.filter (fun a => decide (a ∈ attributes)))).filter
          (fun l => l.isEmpty)).length =
        (methods.filter (fun refs =>
          (refs.filter (fun a => decide (a ∈ attributes))).isEmpty)).length := by
      rw [List.filter_map, List.length_map]
      rfl
    have hAll : ((methods.map (fun refs =>
        refs.filter (fun a => decide (a ∈ attributes)))).all (fun l => l.isEmpty)) =
        (methods.all (fun refs =>
          (refs.filter (fun a => decide (a ∈ attributes))).isEmpty)) := by
      rw [List.all_map]
      rfl
    rw [hfilter, hAll]
    by_cases ha : attributes = []
    · rw [if_pos (Or.inr ha), if_pos (Or.inl ha)]
    · rw [if_neg (show ¬ (methods = [] ∨ attributes = []) by simp [ha, hm])]
      by_cases hall : methods.all (fun refs =>
          (refs.filter (fun a => decide (a ∈ attributes))).isEmpty) = true
      · rw [if_pos hall, if_pos (Or.inr hall)]
      · rw [if_neg hall, if_neg (not_or.mpr ⟨ha, hall⟩)]
  · rfl

/-- C5 witness: the rule equivalence applied to the concrete three-method
class of the claim, its nonemptiness hypothesis discharged. -/
theorem C5_lcom_follows_spec_rule_witness :
    calculate_lcom [["a"], ["a"], []] ["a", "b"] =
      lcomSpecRule [["a"], ["a"], []] ["a", "b"] :=
  C5_lcom_follows_spec_rule.1 [["a"], ["a"], []] ["a", "b"] (by decide)

/-! ## Code size analyzer (analyzers/code_size.py) -/

/-- One function of a file with its line span (count_lines) and line. -/
structure CsFuncInfo where
  name : String
  lines : Nat
  lineno : Nat
deriving Repr, DecidableEq

/-- One input file for the code-size analyzer: the raw line metrics the radon
oracle reports and the extracted function list (parse_ok false models a radon
failure, which skips the file). -/
structure CsFileInput where
  file : String
  module : String
  parse_ok : Bool
  sloc : Nat
  comments : Nat
  blank : Nat
  loc : Nat
  functions : List CsFuncInfo
  class_count : Nat
deriving Repr, DecidableEq

/-- One by_module entry of the code-size accumulator. -/
structure SizeModStats where
  total_sloc : Nat
  file_count : Nat
  avg_file_size : ℚ
  comment_ratio : ℚ
  total_comments : Nat
  total_loc : Nat
deriving Repr, DecidableEq

/-- The defaultdict default for a code-size by_module entry. -/
def SizeModStats.init : SizeModStats := ⟨0, 0, 0, 0, 0, 0⟩

/-- One large_files entry. -/
structure LargeFileEntry where
  file : String
  module : String
  sloc : Nat
  comments : Nat
  comment_ratio : ℚ
deriving Repr, DecidableEq

/-- One large_functions entry. -/
structure LargeFunctionEntry where
  function : String
  module : String
  file : String
  sloc : Nat
  line : Nat
deriving Repr, DecidableEq

/-- One low_documentation entry. -/
structure LowDocEntry where
  file : String
  module : String
  comment_ratio : ℚ
  sloc : Nat
deriving Repr, DecidableEq

/-- One per_file entry of the code-size results. -/
structure CsPerFile where
  file : String
  module : String
  sloc : Nat
  comment_ratio : ℚ
  function_count : Nat
  class_count : Nat
deriving Repr, DecidableEq

/-- The code-size accumulator (self.results); file_size_threshold is stored
into the results by finalize for template use. -/
structure CsState where
  total_sloc : Nat
  total_comments : Nat
  total_blank : Nat
  total_loc : Nat
  comment_ratio : ℚ
  file_count : Nat
  dist_small_0_100 : Nat
  dist_medium_101_500 : Nat
  dist_large_501_plus : Nat
  by_module : List (String × SizeModStats)
  large_files : List LargeFileEntry
  large_functions : List LargeFunctionEntry
  low_documentation : List LowDocEntry
  per_file : List CsPerFile
  file_size_threshold : Nat
deriving Repr, DecidableEq

/-- The accumulator as built by CodeSizeAnalyzer.__init__. -/
def csInit : CsState := ⟨0, 0, 0, 0, 0, 0, 0, 0, 0, [], [], [], [], [], 0⟩

/-- The by_module mutation of _update_results for one file. -/
def csModUpdate (sloc comments loc : Nat) (s : SizeModStats) : SizeModStats :=
  { s with
    total_sloc := s.total_sloc + sloc
    file_count := s.file_count + 1
    total_comments := s.total_comments + comments
    total_loc := s.total_loc + loc }

/-- CodeSizeAnalyzer.analyze_file_content together with
_analyze_function_sizes and _update_results for one file. -/
def csAnalyzeFile (file_size_thr function_size_thr comment_ratio_thr : Nat)
    (st : CsState) (f : CsFileInput) : CsState :=
  if ¬ f.parse_ok then st
  else
    let cr : ℚ := if f.loc > 0 then ((f.comments : ℚ) / (f.loc : ℚ)) * 100 else 0
    let st1 := { st with large_functions := st.large_functions ++
      ((f.functions.filter (fun fn : CsFuncInfo =>
          decide (fn.lines > function_size_thr))).map
        (fun fn : CsFuncInfo => (⟨fn.name, f.module, f.file, fn.lines, fn.lineno⟩ :
          LargeFunctionEntry))) }
    let st2 := { st1 with
      total_sloc := st1.total_sloc + f.sloc
      total_comments := st1.total_comments + f.comments
      total_blank := st1.total_blank + f.blank
      total_loc := st1.total_loc + f.loc
      file_count := st1.file_count + 1 }
    let st3 :=
      if f.sloc ≤ 100 then { st2 with dist_small_0_100 := st2.dist_small_0_100 + 1 }
      else if f.sloc ≤ 500 then
        { st2 with dist_medium_101_500 := st2.dist_medium_101_500 + 1 }
      else { st2 with dist_large_501_plus := st2.dist_large_501_plus + 1 }
    let st4 := if f.sloc > file_size_thr then
        { st3 with large_files := st3.large_files ++
          [(⟨f.file, f.module, f.sloc, f.comments, cr⟩ : LargeFileEntry)] }
      else st3
    let st5 := if cr < (comment_ratio_thr : ℚ) ∧ f.sloc > 50 then
        { st4 with low_documentation := st4.low_documentation ++
          [(⟨f.file, f.module, cr, f.sloc⟩ : LowDocEntry)] }
      else st4
    let bm := updA st5.by_module f.module SizeModStats.init
      (csModUpdate f.sloc f.comments f.loc)
    let st6 := { st5 with by_module := bm }
    { st6 with per_file := st6.per_file ++
      [(⟨f.file, f.module, f.sloc, cr, f.functions.length, f.class_count⟩ :
        CsPerFile)] }

/-- One full pass of the code-size analyzer over a stream of files. -/
def csRun (file_size_thr function_size_thr comment_ratio_thr : Nat)
    (files : List CsFileInput) : CsState :=
  files.foldl (csAnalyzeFile file_size_thr function_size_thr comment_ratio_thr) csInit

/-- The finalize mutation of one code-size by_module entry: the average file
size when the module has files, the comment ratio when it has lines. -/
def csModFinalize (s : SizeModStats) : SizeModStats :=
  let s1 := if s.file_count > 0 then
      { s with avg_file_size := (s.total_sloc : ℚ) / (s.file_count : ℚ) }
    else s
  if s1.total_loc > 0 then
    { s1 with comment_ratio := ((s1.total_comments : ℚ) / (s1.total_loc : ℚ)) * 100 }
  else s1

/-- CodeSizeAnalyzer.finalize_results. -/
def csFinalize (file_size_thr : Nat) (st : CsState) : CsState :=
  let st1 := { st with comment_ratio :=
    if st.total_loc > 0 then ((st.total_comments : ℚ) / (st.total_loc : ℚ)) * 100
    else st.comment_ratio }
  let bm := st1.by_module.map (fun p : String × SizeModStats => (p.1, csModFinalize p.2))
  let st2 := { st1 with by_module := bm }
  let st3 := { st2 with
    large_files := st2.large_files.mergeSort (fun a b => decide (b.sloc ≤ a.sloc))
    large_functions := st2.large_functions.mergeSort (fun a b => decide (b.sloc ≤ a.sloc))
    low_documentation := st2.low_documentation.mergeSort
      (fun a b => decide (a.comment_ratio ≤ b.comment_ratio)) }
  { st3 with file_size_threshold := file_size_thr }

/-! ## Technical-debt calculator (analyzers/tech_debt.py)

The calculator consumes the finalized analyzer result structures; each input
type below carries the fields the calculator reads from the corresponding
finalized dictionary. -/

/-- One low_maintainability_files entry of the maintainability results. -/
structure LowMiEntry where
  file : String
  module : String
  mi_score : ℚ
  rank : String
  category : String
deriving Repr, DecidableEq

/-- One finalized maintainability by_module entry (mi_sum deleted). -/
structure MiModFinal where
  avg_mi : ℚ
  file_count : Nat
  low_mi_count : Nat
deriving Repr, DecidableEq

/-- The maintainability results consumed downstream. -/
structure MiFinal where
  avg_mi : ℚ
  total_files : Nat
  by_module : List (String × MiModFinal)
  low_maintainability_files : List LowMiEntry
deriving Repr, DecidableEq

/-- One god_classes entry of the class-metrics results. -/
structure GodClassEntry where
  class_name : String
  module : String
  file : String
  line : Nat
  wmc : Nat
  lcom : Nat
  methods : Nat
deriving Repr, DecidableEq

/-- One low_cohesion_classes entry of the class-metrics results. -/
structure LowCohesionEntry where
  class_name : String
  module : String
  file : String
  lcom : Nat
  methods : Nat
deriving Repr, DecidableEq

/-- One finalized class-metrics by_module entry. -/
structure ClsModFinal where
  total_classes : Nat
  avg_lcom : ℚ
  avg_wmc : ℚ
  god_classes_count : Nat
deriving Repr, DecidableEq

/-- The class-metrics results consumed downstream. -/
structure ClsFinal where
  total_classes : Nat
  god_classes : List GodClassEntry
  low_cohesion_classes : List LowCohesionEntry
  by_module : List (String × ClsModFinal)
deriving Repr, DecidableEq

/-- One issue_costs entry: per issue type, its count and accumulated hours. -/
structure TdIssueCost where
  count : Nat
  total_hours : ℚ
deriving Repr, DecidableEq

/-- One by_module debt entry (the defaultdict default keeps debt_ratio 0.0
and sqale_rating A). -/
structure TdModDebt where
  debt_hours : ℚ
  debt_ratio : ℚ
  sqale_rating : String
  sloc : Nat
deriving Repr, DecidableEq

/-- The technical-debt calculator's results (top_debt_files is declared but
never filled by the source). -/
structure TdState where
  total_remediation_hours : ℚ
  total_remediation_days : ℚ
  development_cost_hours : ℚ
  debt_ratio : ℚ
  sqale_rating : String
  debt_breakdown : List (String × ℚ)
  by_module : List (String × TdModDebt)
  top_debt_files : List Unit
  issue_costs : List (String × TdIssueCost)
deriving Repr, DecidableEq

/-- The results as built by TechnicalDebtCalculator.__init__. -/
def tdInit : TdState := ⟨0, 0, 0, 0, "A", [], [], [], []⟩

/-- remediation_costs.get with a default. -/
def tdCostGet (costs : List (String × ℚ)) (k : String) (dflt : ℚ) : ℚ :=
  (lookupA costs k).getD dflt

/-- TechnicalDebtCalculator._add_debt. -/
def tdAddDebt (st : TdState) (issue_type : String) (hours : ℚ) : TdState :=
  { st with
    total_remediation_hours := st.total_remediation_hours + hours
    issue_costs := updA st.issue_costs issue_type ⟨0, 0⟩
      (fun c => ⟨c.count + 1, c.total_hours + hours⟩) }

/-- One issue_costs total read back during a breakdown computation (the
source's defaultdict read; the entry-creating side effect of a missing key
only adds a zero entry and is not modelled). -/
def tdIssueHours (st : TdState) (k : String) : ℚ :=
  ((lookupA st.issue_costs k).getD ⟨0, 0⟩).total_hours

/-- The issue type chosen for one high-complexity function. -/
def tdComplexityIssueType (func : CxHighEntry) : String :=
  if func.complexity > 20 then "very_high_complexity" else "high_complexity"

/-- The finalized complexity results as consumed by the calculator. -/
structure TdComplexityInput where
  high_complexity_functions : List CxHighEntry
  by_module : List (String × CxModFinal)
deriving Repr, DecidableEq

/-- TechnicalDebtCalculator._calculate_complexity_debt: note that the
fallback cost is 0.5 for both complexity tiers. -/
def tdComplexityDebt (costs : List (String × ℚ)) (st : TdState)
    (results : TdComplexityInput) : TdState :=
  let st1 := results.high_complexity_functions.foldl (fun s func =>
    tdAddDebt s (tdComplexityIssueType func)
      (tdCostGet costs (tdComplexityIssueType func) 0.5)) st
  let bd := setA st1.debt_breakdown "complexity"
    (tdIssueHours st1 "very_high_complexity" + tdIssueHours st1 "high_complexity")
  { st1 with debt_breakdown := bd }

/-- TechnicalDebtCalculator._calculate_maintainability_debt. -/
def tdMaintainabilityDebt (costs : List (String × ℚ)) (st : TdState)
    (results : MiFinal) : TdState :=
  let st1 := results.low_maintainability_files.foldl (fun s _ =>
    tdAddDebt s "low_maintainability" (tdCostGet costs "low_maintainability" 2)) st
  let bd := setA st1.debt_breakdown "maintainability"
    (tdIssueHours st1 "low_maintainability")
  { st1 with debt_breakdown := bd }

/-- The issue type chosen for one ownership violation (any non-write type is
charged as a read). -/
def tdViolationIssueType (v : DbViolationGlobal) : String :=
  if v.type = "write" then "ownership_violation_write" else "ownership_violation_read"

/-- The finalized db-coupling results as consumed by the calculator. -/
structure TdDbInput where
  violations : List DbViolationGlobal
  by_module : List (String × DbModStats)
deriving Repr, DecidableEq

/-- TechnicalDebtCalculator._calculate_db_coupling_debt: note that the
fallback cost is 1.0 for both violation kinds. -/
def tdDbCouplingDebt (costs : List (String × ℚ)) (st : TdState)
    (results : TdDbInput) : TdState :=
  let st1 := results.violations.foldl (fun s v =>
    tdAddDebt s (tdViolationIssueType v)
      (tdCostGet costs (tdViolationIssueType v) 1)) st
  let bd := setA st1.debt_breakdown "db_coupling"
    (tdIssueHours st1 "ownership_violation_write" +
      tdIssueHours st1 "ownership_violation_read")
  { st1 with debt_breakdown := bd }

/-- TechnicalDebtCalculator._calculate_class_debt. -/
def tdClassDebt (costs : List (String × ℚ)) (st : TdState)
    (results : ClsFinal) : TdState :=
  let st1 := results.god_classes.foldl (fun s _ =>
    tdAddDebt s "god_class" (tdCostGet costs "god_class" 4)) st
  let st2 := results.low_cohesion_classes.foldl (fun s _ =>
    tdAddDebt s "low_cohesion" (tdCostGet costs "low_cohesion" 3)) st1
  let bd := setA st2.debt_breakdown "class_design"
    (tdIssueHours st2 "god_class" + tdIssueHours st2 "low_cohesion")
  { st2 with debt_breakdown := bd }

/-- The finalized code-smells results as consumed by the calculator. -/
structure TdSmellsInput where
  long_methods : List LongMethodEntry
  long_parameter_lists : List LongParamEntry
  deep_nesting : List DeepNestEntry
  by_module : List (String × SmModStats)
deriving Repr, DecidableEq

/-- TechnicalDebtCalculator._calculate_smells_debt. -/
def tdSmellsDebt (costs : List (String × ℚ)) (st : TdState)
    (results : TdSmellsInput) : TdState :=
  let st1 := results.long_methods.foldl (fun s _ =>
    tdAddDebt s "long_method" (tdCostGet costs "long_method" 0.5)) st
  let st2 := results.long_parameter_lists.foldl (fun s _ =>
    tdAddDebt s "long_parameter_list" (tdCostGet costs "long_parameter_list" 0.25)) st1
  let st3 := results.deep_nesting.foldl (fun s _ =>
    tdAddDebt s "deep_nesting" (tdCostGet costs "deep_nesting" 0.5)) st2
  let bd := setA st3.debt_breakdown "code_smells"
    (tdIssueHours st3 "long_method" + tdIssueHours st3 "long_parameter_list" +
      tdIssueHours st3 "deep_nesting")
  { st3 with debt_breakdown := bd }

/-- TechnicalDebtCalculator._get_sqale_rating. -/
def tdSqaleRating (debt_ratio : ℚ) : String :=
  if debt_ratio ≤ 5 then "A"
  else if debt_ratio ≤ 10 then "B"
  else if debt_ratio ≤ 20 then "C"
  else if debt_ratio ≤ 50 then "D"
  else "E"

/-- The per-module debt hours accumulated from the five analyzer inputs in
_calculate_module_debt (no low-cohesion term exists at module level). -/
def tdModuleDebtHours (costs : List (String × ℚ)) (cx : TdComplexityInput)
    (mi : MiFinal) (db : TdDbInput) (cls : ClsFinal) (sm : TdSmellsInput)
    (m : String) : ℚ :=
  let d1 := match lookupA cx.by_module m with
    | some s => (s.high_complexity_count : ℚ) * tdCostGet costs "high_complexity" 0.5
    | none => 0
  let d2 := match lookupA mi.by_module m with
    | some s => (s.low_mi_count : ℚ) * tdCostGet costs "low_maintainability" 2
    | none => 0
  let d3 := match lookupA db.by_module m with
    | some s => (s.violations_write : ℚ) * tdCostGet costs "ownership_violation_write" 2
      + (s.violations_read : ℚ) * tdCostGet costs "ownership_violation_read" 0.5
    | none => 0
  let d4 := match lookupA cls.by_module m with
    | some s => (s.god_classes_count : ℚ) * tdCostGet costs "god_class" 4
    | none => 0
  let d5 := match lookupA sm.by_module m with
    | some s => (s.long_methods : ℚ) * tdCostGet costs "long_method" 0.5
      + (s.long_parameter_lists : ℚ) * tdCostGet costs "long_parameter_list" 0.25
      + (s.deep_nesting : ℚ) * tdCostGet costs "deep_nesting" 0.5
    | none => 0
  d1 + d2 + d3 + d4 + d5

/-- One by_module debt entry of _calculate_module_debt: ratio and rating are
recomputed only when the module's sloc is positive, otherwise the defaultdict
defaults 0.0 and A remain. -/
def tdModuleDebtEntry (costs : List (String × ℚ)) (cx : TdComplexityInput)
    (mi : MiFinal) (db : TdDbInput) (cls : ClsFinal) (sm : TdSmellsInput)
    (m : String) (module_sloc : Nat) : TdModDebt :=
  let module_debt := tdModuleDebtHours costs cx mi db cls sm m
  if module_sloc > 0 then
    let module_dev_cost := (module_sloc : ℚ) * 0.1
    let module_debt_ratio := (module_debt / module_dev_cost) * 100
    { debt_hours := module_debt, debt_ratio := module_debt_ratio,
      sqale_rating := tdSqaleRating module_debt_ratio, sloc := module_sloc }
  else
    { debt_hours := module_debt, debt_ratio := 0, sqale_rating := "A",
      sloc := module_sloc }

/-- TechnicalDebtCalculator._calculate_module_debt: entries are created from
the code-size by_module keys (their sloc recorded first), then debt is added
module by module. -/
def tdCalculateModuleDebt (costs : List (String × ℚ)) (cx : TdComplexityInput)
    (mi : MiFinal) (db : TdDbInput) (cls : ClsFinal) (sm : TdSmellsInput)
    (cs : CsState) : List (String × TdModDebt) :=
  cs.by_module.map (fun p =>
    (p.1, tdModuleDebtEntry costs cx mi db cls sm p.1 p.2.total_sloc))

/-- TechnicalDebtCalculator.calculate, including _finalize_debt_calculations
(development cost is total sloc times 0.1 hours; debt ratio guarded to 0.0
when the development cost is 0). -/
def tdCalculate (costs : List (String × ℚ)) (cx : TdComplexityInput)
    (mi : MiFinal) (cs : CsState) (db : TdDbInput) (cls : ClsFinal)
    (sm : TdSmellsInput) : TdState :=
  let st1 := { tdInit with development_cost_hours := (cs.total_sloc : ℚ) * 0.1 }
  let st2 := tdComplexityDebt costs st1 cx
  let st3 := tdMaintainabilityDebt costs st2 mi
  let st4 := tdDbCouplingDebt costs st3 db
  let st5 := tdClassDebt costs st4 cls
  let st6 := tdSmellsDebt costs st5 sm
  let st7 := { st6 with by_module := tdCalculateModuleDebt costs cx mi db cls sm cs }
  let st8 := { st7 with total_remediation_days := st7.total_remediation_hours / 8 }
  let st9 := { st8 with debt_ratio :=
    if st8.development_cost_hours > 0 then
      (st8.total_remediation_hours / st8.development_cost_hours) * 100
    else 0 }
  { st9 with sqale_rating := tdSqaleRating st9.debt_ratio }

/-! ## Claims C3 and C9: technical-debt charging -/

theorem tdFoldAddDebt_total {α : Type} (l : List α) (t : α → String) (c : α → ℚ)
    (st : TdState) :
    (l.foldl (fun s x => tdAddDebt s (t x) (c x)) st).total_remediation_hours =
      st.total_remediation_hours + (l.map c).sum := by
  induction l generalizing st with
  | nil => simp
  | cons x xs ih =>
    rw [List.foldl_cons, ih]
    simp [tdAddDebt]
    ring

theorem sum_map_const_rat {α : Type} (l : List α) (k : ℚ) :
    (l.map (fun _ => k)).sum = (l.length : ℚ) * k := by
  induction l with
  | nil => simp
  | cons x xs ih =>
    simp [ih]
    ring

theorem length_filter_decide_partition {α : Type} (l : List α) (P : α → Prop)
    [DecidablePred P] :
    (l.filter (fun x => decide (P x))).length +
      (l.filter (fun x => decide (¬ P x))).length = l.length := by
  have he : (fun x => decide (¬ P x)) = (fun x => ! decide (P x)) := by
    funext x
    simp [decide_not]
  rw [he]
  induction l with
  | nil => rfl
  | cons x xs ih =>
    by_cases h : P x <;> simp [List.filter_cons, h] <;> omega

theorem tdCostGet_nil (k : String) (d : ℚ) : tdCostGet [] k d = d := rfl

theorem tdComplexityDebt_total_default (st : TdState) (r : TdComplexityInput) :
    (tdComplexityDebt [] st r).total_remediation_hours =
      st.total_remediation_hours + (r.high_complexity_functions.length : ℚ) * 0.5 := by
  have h := tdFoldAddDebt_total r.high_complexity_functions tdComplexityIssueType
    (fun fc => tdCostGet [] (tdComplexityIssueType fc) 0.5) st
  have h2 : (r.high_complexity_functions.map
      (fun fc => tdCostGet [] (tdComplexityIssueType fc) 0.5)).sum =
      (r.high_complexity_functions.length : ℚ) * 0.5 := by
    have he : (fun fc : CxHighEntry => tdCostGet [] (tdComplexityIssueType fc) 0.5) =
        (fun _ => (0.5 : ℚ)) := by
      funext fc
      rfl
    rw [he, sum_map_const_rat]
  exact h.trans (by rw [h2])

theorem tdMaintainabilityDebt_total_default (st : TdState) (r : MiFinal) :
    (tdMaintainabilityDebt [] st r).total_remediation_hours =
      st.total_remediation_hours + (r.low_maintainability_files.length : ℚ) * 2 := by
  have h := tdFoldAddDebt_total r.low_maintainability_files
    (fun _ => "low_maintainability") (fun _ => tdCostGet [] "low_maintainability" 2) st
  have h2 : (r.low_maintainability_files.map
      (fun _ => tdCostGet [] "low_maintainability" 2)).sum =
      (r.low_maintainability_files.length : ℚ) * 2 := by
    rw [show (fun _ : LowMiEntry => tdCostGet [] "low_maintainability" 2) =
      (fun _ => (2 : ℚ)) from rfl, sum_map_const_rat]
  exact h.trans (by rw [h2])

theorem tdDbCouplingDebt_total_default (st : TdState) (r : TdDbInput) :
    (tdDbCouplingDebt [] st r).total_remediation_hours =
      st.total_remediation_hours + (r.violations.length : ℚ) * 1 := by
  have h := tdFoldAddDebt_total r.violations tdViolationIssueType
    (fun v => tdCostGet [] (tdViolationIssueType v) 1) st
  have h2 : (r.violations.map (fun v => tdCostGet [] (tdViolationIssueType v) 1)).sum =
      (r.violations.length : ℚ) * 1 := by
    rw [show (fun v : DbViolationGlobal => tdCostGet [] (tdViolationIssueType v) 1) =
      (fun _ => (1 : ℚ)) from rfl, sum_map_const_rat]
  exact h.trans (by rw [h2])

theorem tdClassDebt_total_default (st : TdState) (r : ClsFinal) :
    (tdClassDebt [] st r).total_remediation_hours =
      st.total_remediation_hours + (r.god_classes.length : ℚ) * 4 +
        (r.low_cohesion_classes.length : ℚ) * 3 := by
  have hg := tdFoldAddDebt_total r.god_classes (fun _ => "god_class")
    (fun _ => tdCostGet [] "god_class" 4) st
  have hg2 : (r.god_classes.map (fun _ => tdCostGet [] "god_class" 4)).sum =
      (r.god_classes.length : ℚ) * 4 := by
    rw [show (fun _ : GodClassEntry => tdCostGet [] "god_class" 4) =
      (fun _ => (4 : ℚ)) from rfl, sum_map_const_rat]
  have hl := tdFoldAddDebt_total r.low_cohesion_classes (fun _ => "low_cohesion")
    (fun _ => tdCostGet [] "low_cohesion" 3)
    (r.god_classes.foldl (fun s x =>
      tdAddDebt s ((fun _ => "god_class") x) ((fun _ => tdCostGet [] "god_class" 4) x)) st)
  have hl2 : (r.low_cohesion_classes.map (fun _ => tdCostGet [] "low_cohesion" 3)).sum =
      (r.low_cohesion_classes.length : ℚ) * 3 := by
    rw [show (fun _ : LowCohesionEntry => tdCostGet [] "low_cohesion" 3) =
      (fun _ => (3 : ℚ)) from rfl, sum_map_const_rat]
  calc (tdClassDebt [] st r).total_remediation_hours
      = (r.god_classes.foldl (fun s x => tdAddDebt s ((fun _ => "god_class") x)
          ((fun _ => tdCostGet [] "god_class" 4) x)) st).total_remediation_hours +
            (r.low_cohesion_classes.length : ℚ) * 3 := by
        exact hl.trans (by rw [hl2])
    _ = st.total_remediation_hours + (r.god_classes.length : ℚ) * 4 +
          (r.low_cohesion_classes.length : ℚ) * 3 := by
        rw [hg.trans (by rw [hg2])]

theorem tdSmellsDebt_total_default (st : TdState) (r : TdSmellsInput) :
    (tdSmellsDebt [] st r).total_remediation_hours =
      st.total_remediation_hours + (r.long_methods.length : ℚ) * 0.5 +
        (r.long_parameter_lists.length : ℚ) * 0.25 +
        (r.deep_nesting.length : ℚ) * 0.5 := by
  have h1 := tdFoldAddDebt_total r.long_methods (fun _ => "long_method")
    (fun _ => tdCostGet [] "long_method" 0.5) st
  have h12 : (r.long_methods.map (fun _ => tdCostGet [] "long_method" 0.5)).sum =
      (r.long_methods.length : ℚ) * 0.5 := by
    rw [show (fun _ : LongMethodEntry => tdCostGet [] "long_method" 0.5) =
      (fun _ => (0.5 : ℚ)) from rfl, sum_map_const_rat]
  have s1 := r.long_methods.foldl (fun s x => tdAddDebt s ((fun _ => "long_method") x)
    ((fun _ => tdCostGet [] "long_method" 0.5) x)) st
  have h2 := tdFoldAddDebt_total r.long_parameter_lists (fun _ => "long_parameter_list")
    (fun _ => tdCostGet [] "long_parameter_list" 0.25)
    (r.long_methods.foldl (fun s x => tdAddDebt s ((fun _ => "long_method") x)
      ((fun _ => tdCostGet [] "long_method" 0.5) x)) st)
  have h22 : (r.long_parameter_lists.map
      (fun _ => tdCostGet [] "long_parameter_list" 0.25)).sum =
      (r.long_parameter_lists.length : ℚ) * 0.25 := by
    rw [show (fun _ : LongParamEntry => tdCostGet [] "long_parameter_list" 0.25) =
      (fun _ => (0.25 : ℚ)) from rfl, sum_map_const_rat]
  have h3 := tdFoldAddDebt_total r.deep_nesting (fun _ => "deep_nesting")
    (fun _ => tdCostGet [] "deep_nesting" 0.5)
    (r.long_parameter_lists.foldl (fun s x =>
      tdAddDebt s ((fun _ => "long_parameter_list") x)
        ((fun _ => tdCostGet [] "long_parameter_list" 0.25) x))
      (r.long_methods.foldl (fun s x => tdAddDebt s ((fun _ => "long_method") x)
        ((fun _ => tdCostGet [] "long_method" 0.5) x)) st))
  have h32 : (r.deep_nesting.map (fun _ => tdCostGet [] "deep_nesting" 0.5)).sum =
      (r.deep_nesting.length : ℚ) * 0.5 := by
    rw [show (fun _ : DeepNestEntry => tdCostGet [] "deep_nesting" 0.5) =
      (fun _ => (0.5 : ℚ)) from rfl, sum_map_const_rat]
  calc (tdSmellsDebt [] st r).total_remediation_hours
      = _ + (r.deep_nesting.length : ℚ) * 0.5 := h3.trans (by rw [h32])
    _ = _ + (r.long_parameter_lists.length : ℚ) * 0.25 +
          (r.deep_nesting.length : ℚ) * 0.5 := by rw [h2.trans (by rw [h22])]
    _ = st.total_remediation_hours + (r.long_methods.length : ℚ) * 0.5 +
          (r.long_parameter_lists.length : ℚ) * 0.25 +
          (r.deep_nesting.length : ℚ) * 0.5 := by rw [h1.trans (by rw [h12])]

theorem tdCalculate_total_default (cx : TdComplexityInput) (mi : MiFinal)
    (cs : CsState) (db : TdDbInput) (cls : ClsFinal) (sm : TdSmellsInput) :
    (tdCalculate [] cx mi cs db cls sm).total_remediation_hours =
      (cx.high_complexity_functions.length : ℚ) * 0.5 +
      (mi.low_maintainability_files.length : ℚ) * 2 +
      (db.violations.length : ℚ) * 1 +
      (cls.god_classes.length : ℚ) * 4 +
      (cls.low_cohesion_classes.length : ℚ) * 3 +
      (sm.long_methods.length : ℚ) * 0.5 +
      (sm.long_parameter_lists.length : ℚ) * 0.25 +
      (sm.deep_nesting.length : ℚ) * 0.5 := by
  show (tdSmellsDebt [] (tdClassDebt [] (tdDbCouplingDebt []
    (tdMaintainabilityDebt [] (tdComplexityDebt []
      { tdInit with development_cost_hours := (cs.total_sloc : ℚ) * 0.1 } cx) mi)
    db) cls) sm).total_remediation_hours = _
  rw [tdSmellsDebt_total_default, tdClassDebt_total_default,
    tdDbCouplingDebt_total_default, tdMaintainabilityDebt_total_default,
    tdComplexityDebt_total_default]
  show (0 : ℚ) + _ + _ + _ + _ + _ + _ + _ + _ = _
  ring

/-- C3 counterexample: with no remediation_costs table, one function of
complexity 25 (a very-high-complexity instance) is charged 0.5 hours, not the
1.0 hours the claim states, so the total remediation is 0.5. -/
theorem C3_counterexample_very_high_default_is_half_hour :
    (tdCalculate []
      ⟨[⟨"f", "m", "a.py", 1, 25, "very_complex", none⟩], []⟩
      ⟨0, 0, [], []⟩ csInit ⟨[], []⟩ ⟨0, [], [], []⟩ ⟨[], [], [], []⟩
      ).total_remediation_hours = 1/2 ∧ ((1/2 : ℚ) ≠ 1) := by
  constructor
  · rw [tdCalculate_total_default]
    norm_num
  · norm_num

/-- C3 (amended): with no remediation_costs table the global totals charge
0.5h per very-high-complexity and per high-complexity function, 2.0h per
low-maintainability file, 1.0h per ownership-violation write and per
ownership-violation read, 4.0h per god class, 3.0h per low-cohesion class,
0.5h per long method, 0.25h per long parameter list and 0.5h per deep-nesting
smell; the per-module debt charges 0.5h per high-complexity function (no
very-high tier), 2.0h per low-maintainability file, 2.0h per write violation,
0.5h per read violation, 4.0h per god class, 0.5h/0.25h/0.5h per smell, and
has no low-cohesion charge. -/
theorem C3_default_remediation_charges :
    (∀ (cx : TdComplexityInput) (mi : MiFinal) (cs : CsState) (db : TdDbInput)
        (cls : ClsFinal) (sm : TdSmellsInput),
      (tdCalculate [] cx mi cs db cls sm).total_remediation_hours =
        ((cx.high_complexity_functions.filter
          (fun fc => decide (fc.complexity > 20))).length : ℚ) * 0.5 +
        ((cx.high_complexity_functions.filter
          (fun fc => decide (¬ fc.complexity > 20))).length : ℚ) * 0.5 +
        (mi.low_maintainability_files.length : ℚ) * 2 +
        ((db.violations.filter (fun v => decide (v.type = "write"))).length : ℚ) * 1 +
        ((db.violations.filter (fun v => decide (¬ v.type = "write"))).length : ℚ) * 1 +
        (cls.god_classes.length : ℚ) * 4 +
        (cls.low_cohesion_classes.length : ℚ) * 3 +
        (sm.long_methods.length : ℚ) * 0.5 +
        (sm.long_parameter_lists.length : ℚ) * 0.25 +
        (sm.deep_nesting.length : ℚ) * 0.5) ∧
    (∀ (cx : TdComplexityInput) (mi : MiFinal) (cs : CsState) (db : TdDbInput)
        (cls : ClsFinal) (sm : TdSmellsInput) (p : String × TdModDebt),
      p ∈ (tdCalculate [] cx mi cs db cls sm).by_module →
      p.2.debt_hours =
        ((((lookupA cx.by_module p.1).map
          (fun s => s.high_complexity_count)).getD 0 : ℚ)) * 0.5 +
        ((((lookupA mi.by_module p.1).map (fun s => s.low_mi_count)).getD 0 : ℚ)) * 2 +
        ((((lookupA db.by_module p.1).map
          (fun s => s.violations_write)).getD 0 : ℚ)) * 2 +
        ((((lookupA db.by_module p.1).map
          (fun s => s.violations_read)).getD 0 : ℚ)) * 0.5 +
        ((((lookupA cls.by_module p.1).map
          (fun s => s.god_classes_count)).getD 0 : ℚ)) * 4 +
        ((((lookupA sm.by_module p.1).map (fun s => s.long_methods)).getD 0 : ℚ)) * 0.5 +
        ((((lookupA sm.by_module p.1).map
          (fun s => s.long_parameter_lists)).getD 0 : ℚ)) * 0.25 +
        ((((lookupA sm.by_module p.1).map
          (fun s => s.deep_nesting)).getD 0 : ℚ)) * 0.5) := by
  constructor
  · intro cx mi cs db cls sm
    rw [tdCalculate_total_default]
    rw [← length_filter_decide_partition cx.high_complexity_functions
      (fun fc => fc.complexity > 20)]
    rw [← length_filter_decide_partition db.violations (fun v => v.type = "write")]
    push_cast
    ring
  · intro cx mi cs db cls sm p hp
    have hp2 : p ∈ cs.by_module.map (fun q =>
        (q.1, tdModuleDebtEntry [] cx mi db cls sm q.1 q.2.total_sloc)) := hp
    obtain ⟨q, _, rfl⟩ := List.mem_map.mp hp2
    have hd : (tdModuleDebtEntry [] cx mi db cls sm q.1 q.2.total_sloc).debt_hours =
        tdModuleDebtHours [] cx mi db cls sm q.1 := by
      unfold tdModuleDebtEntry
      dsimp only
      split <;> rfl
    rw [hd]
    unfold tdModuleDebtHours
    rcases lookupA cx.by_module q.1 with _ | s1 <;>
      rcases lookupA mi.by_module q.1 with _ | s2 <;>
        rcases lookupA db.by_module q.1 with _ | s3 <;>
          rcases lookupA cls.by_module q.1 with _ | s4 <;>
            rcases lookupA sm.by_module q.1 with _ | s5 <;>
              simp [tdCostGet, lookupA] <;> ring

/-- C3 witness: the amended per-module equation applied to a concrete run with
one module of zero sloc and three long methods, its membership hypothesis
discharged. -/
theorem C3_default_remediation_charges_witness :
    ("m", tdModuleDebtEntry [] ⟨[], []⟩ ⟨0, 0, [], []⟩ ⟨[], []⟩ ⟨0, [], [], []⟩
        ⟨[], [], [], [("m", ⟨3, 0, 0, 3⟩)]⟩ "m"
        (⟨0, 0, 0, 0, 0, 0⟩ : SizeModStats).total_sloc).2.debt_hours =
      ((((lookupA ([] : List (String × CxModFinal)) "m").map
        (fun s => s.high_complexity_count)).getD 0 : ℚ)) * 0.5 +
      ((((lookupA ([] : List (String × MiModFinal)) "m").map
        (fun s => s.low_mi_count)).getD 0 : ℚ)) * 2 +
      ((((lookupA ([] : List (String × DbModStats)) "m").map
        (fun s => s.violations_write)).getD 0 : ℚ)) * 2 +
      ((((lookupA ([] : List (String × DbModStats)) "m").map
        (fun s => s.violations_read)).getD 0 : ℚ)) * 0.5 +
      ((((lookupA ([] : List (String × ClsModFinal)) "m").map
        (fun s => s.god_classes_count)).getD 0 : ℚ)) * 4 +
      ((((lookupA [("m", (⟨3, 0, 0, 3⟩ : SmModStats))] "m").map
        (fun s => s.long_methods)).getD 0 : ℚ)) * 0.5 +
      ((((lookupA [("m", (⟨3, 0, 0, 3⟩ : SmModStats))] "m").map
        (fun s => s.long_parameter_lists)).getD 0 : ℚ)) * 0.25 +
      ((((lookupA [("m", (⟨3, 0, 0, 3⟩ : SmModStats))] "m").map
        (fun s => s.deep_nesting)).getD 0 : ℚ)) * 0.5 :=
  C3_default_remediation_charges.2 ⟨[], []⟩ ⟨0, 0, [], []⟩
    { csInit with by_module := [("m", ⟨0, 0, 0, 0, 0, 0⟩)] } ⟨[], []⟩
    ⟨0, [], [], []⟩ ⟨[], [], [], [("m", ⟨3, 0, 0, 3⟩)]⟩ _ (List.mem_singleton.mpr rfl)

/-- C9: a module whose recorded sloc is 0 keeps the defaultdict values
debt_ratio 0.0 and sqale_rating A no matter how many debt hours were
attributed to it, because ratio and rating are recomputed only when sloc is
positive; its debt_hours field still holds the accumulated module debt. -/
theorem C9_zero_sloc_module_keeps_rating_A (costs : List (String × ℚ))
    (cx : TdComplexityInput) (mi : MiFinal) (cs : CsState) (db : TdDbInput)
    (cls : ClsFinal) (sm : TdSmellsInput) (m : String) (stats : SizeModStats)
    (h1 : lookupA cs.by_module m = some stats) (h2 : stats.total_sloc = 0) :
    lookupA (tdCalculate costs cx mi cs db cls sm).by_module m =
      some ⟨tdModuleDebtHours costs cx mi db cls sm m, 0, "A", 0⟩ := by
  have hmap := lookupA_map cs.by_module
    (fun n s => tdModuleDebtEntry costs cx mi db cls sm n s.total_sloc) m
  have hstep : lookupA (tdCalculate costs cx mi cs db cls sm).by_module m =
      (lookupA cs.by_module m).map
        (fun s => tdModuleDebtEntry costs cx mi db cls sm m s.total_sloc) := hmap
  rw [hstep, h1]
  show some (tdModuleDebtEntry costs cx mi db cls sm m stats.total_sloc) = _
  rw [h2]
  unfold tdModuleDebtEntry
  rw [if_neg (by omega)]

/-- C9 witness: a concrete module of zero sloc with three long methods keeps
debt_ratio 0.0 and rating A while its debt_hours carry the attributed hours. -/
theorem C9_zero_sloc_module_keeps_rating_A_witness :
    lookupA (tdCalculate [] ⟨[], []⟩ ⟨0, 0, [], []⟩
      { csInit with by_module := [("m", ⟨0, 0, 0, 0, 0, 0⟩)] } ⟨[], []⟩
      ⟨0, [], [], []⟩ ⟨[], [], [], [("m", ⟨3, 0, 0, 3⟩)]⟩).by_module "m" =
      some ⟨tdModuleDebtHours [] ⟨[], []⟩ ⟨0, 0, [], []⟩ ⟨[], []⟩ ⟨0, [], [], []⟩
        ⟨[], [], [], [("m", ⟨3, 0, 0, 3⟩)]⟩ "m", 0, "A", 0⟩ :=
  C9_zero_sloc_module_keeps_rating_A [] ⟨[], []⟩ ⟨0, 0, [], []⟩
    { csInit with by_module := [("m", ⟨0, 0, 0, 0, 0, 0⟩)] } ⟨[], []⟩
    ⟨0, [], [], []⟩ ⟨[], [], [], [("m", ⟨3, 0, 0, 3⟩)]⟩ "m" ⟨0, 0, 0, 0, 0, 0⟩
    rfl rfl

/-! ## Test analysis analyzer: finalize (analyzers/test_analysis.py) -/

/-- One by_module entry of the test-analysis results. -/
structure TAModStats where
  test_files : Nat
  unit_tests : Nat
  integration_tests : Nat
  edge_case_tests : Nat
  happy_path_tests : Nat
  edge_case_percentage : ℚ
  testability_score : ℚ
  mixed_functions : Nat
  total_functions : Nat
  functions_with_tests : Nat
  function_coverage : ℚ
deriving Repr, DecidableEq

/-- The test_ratio sub-record of the test-analysis results. -/
structure TATestRatio where
  unit_percentage : ℚ
  integration_percentage : ℚ
deriving Repr, DecidableEq

/-- The edge_case_analysis sub-record (the details list is not consumed by
anything the claims touch and is omitted). -/
structure TAEdgeCaseAnalysis where
  total_edge_case_tests : Nat
  total_happy_path_tests : Nat
  edge_case_percentage : ℚ
  exception_handling_tests : Nat
  boundary_value_tests : Nat
  negative_assertion_tests : Nat
  error_condition_tests : Nat
  regression_tests : Nat
  parametrized_tests : Nat
deriving Repr, DecidableEq

/-- The testability sub-record. -/
structure TATestability where
  total_functions : Nat
  functions_with_db_access : Nat
  functions_with_business_logic : Nat
  functions_mixing_both : Nat
  testability_score : ℚ
deriving Repr, DecidableEq

/-- The test-analysis accumulator at the moment finalize_results runs. -/
structure TAState where
  total_test_files : Nat
  unit_test_files : Nat
  integration_test_files : Nat
  total_test_functions : Nat
  unit_test_functions : Nat
  integration_test_functions : Nat
  test_ratio : TATestRatio
  edge_case_analysis : TAEdgeCaseAnalysis
  by_module : List (String × TAModStats)
  testability : TATestability
deriving Repr, DecidableEq

/-- The finalize mutation of one test-analysis by_module entry: the module
testability score and edge-case percentage (0.0 on empty denominators), then
the function-coverage computation over the tracked production and test
function name sets (coverage 0.0 when the module has no production
functions). -/
def taModFinalize (prodFuncs testFuncs : List (String × List String))
    (m : String) (s : TAModStats) : TAModStats :=
  let total_module_tests := s.unit_tests + s.integration_tests
  let s1 := if total_module_tests > 0 then
      { s with testability_score := ((s.unit_tests : ℚ) / (total_module_tests : ℚ)) * 100 }
    else { s with testability_score := 0 }
  let module_total := s.edge_case_tests + s.happy_path_tests
  let s2 := if module_total > 0 then
      { s1 with edge_case_percentage :=
        ((s.edge_case_tests : ℚ) / (module_total : ℚ)) * 100 }
    else { s1 with edge_case_percentage := 0 }
  let production_funcs := (lookupA prodFuncs m).getD []
  if production_funcs.isEmpty then { s2 with function_coverage := 0 }
  else
    let test_funcs := (lookupA testFuncs m).getD []
    let tested_funcs := production_funcs.filter
      (fun f => test_funcs.contains ("test_" ++ f))
    { s2 with
      functions_with_tests := tested_funcs.length
      function_coverage :=
        ((tested_funcs.length : ℚ) / (production_funcs.length : ℚ)) * 100 }

/-- TestAnalyzer.finalize_results, given the accumulated state and the two
per-module function-name dictionaries: the unit and integration percentages
are recomputed only when there are test functions (otherwise the stored
values remain); the edge-case percentage falls back to 0.0; the global
testability score falls back to 100.0 when no function has business logic. -/
def taFinalize (st : TAState) (prodFuncs testFuncs : List (String × List String)) :
    TAState :=
  let st1 := if st.total_test_functions > 0 then
      { st with test_ratio :=
        { unit_percentage :=
            ((st.unit_test_functions : ℚ) / (st.total_test_functions : ℚ)) * 100,
          integration_percentage :=
            ((st.integration_test_functions : ℚ) / (st.total_test_functions : ℚ)) * 100 } }
    else st
  let total_edge := st1.edge_case_analysis.total_edge_case_tests
  let total_happy := st1.edge_case_analysis.total_happy_path_tests
  let total_all_tests := total_edge + total_happy
  let eca := { st1.edge_case_analysis with edge_case_percentage :=
    if total_all_tests > 0 then ((total_edge : ℚ) / (total_all_tests : ℚ)) * 100 else 0 }
  let st2 := { st1 with edge_case_analysis := eca }
  let total_with_logic := st2.testability.functions_with_business_logic
  let mixed := st2.testability.functions_mixing_both
  let tst := { st2.testability with testability_score :=
    if total_with_logic > 0 then
      (((total_with_logic : ℚ) - (mixed : ℚ)) / (total_with_logic : ℚ)) * 100
    else 100 }
  let st3 := { st2 with testability := tst }
  let bm := st3.by_module.map (fun p : String × TAModStats =>
    (p.1, taModFinalize prodFuncs testFuncs p.1 p.2))
  { st3 with by_module := bm }

/-! ## Module health calculator (analyzers/module_health.py) -/

/-- The finalized per-analyzer by_module maps and the module list that the
module-health calculator consumes. -/
structure MHInputs where
  modules : List String
  db_coupling : List (String × DbModStats)
  complexity : List (String × CxModFinal)
  maintainability : List (String × MiModFinal)
  tests : List (String × TAModStats)
  code_smells : List (String × SmModStats)
  tech_debt : List (String × TdModDebt)
  code_size : List (String × SizeModStats)
deriving Repr, DecidableEq

/-- ModuleHealthCalculator._normalize_coupling. -/
def mhNormalizeCoupling (s : Option DbModStats) : ℚ :=
  let severity : ℚ := match s with
    | some st => (st.severity_score : ℚ)
    | none => 0
  if severity = 0 then 100 else max 0 (100 - severity * 2)

/-- ModuleHealthCalculator._normalize_complexity: the four-segment piecewise
mapping of the module's average complexity, defaulting the average to 5.0
when the module is absent from the complexity by_module mapping. -/
def mhNormalizeComplexity (s : Option CxModFinal) : ℚ :=
  let c : ℚ := match s with
    | some st => st.avg_complexity
    | none => 5
  if c ≤ 5 then 100 - (c - 1) * 5
  else if c ≤ 10 then 80 - (c - 5) * 4
  else if c ≤ 20 then 60 - (c - 10) * 4
  else max 0 (20 - (c - 20))

/-- ModuleHealthCalculator._normalize_smells. -/
def mhNormalizeSmells (sm : Option SmModStats) (sz : Option SizeModStats) : ℚ :=
  let total_smells : Nat := match sm with
    | some st => st.total_smells
    | none => 0
  let sloc : Nat := match sz with
    | some st => st.total_sloc
    | none => 1
  let smells_per_kloc : ℚ :=
    if sloc > 0 then ((total_smells : ℚ) / (sloc : ℚ)) * 1000 else 0
  max 0 (100 - smells_per_kloc * 10)

/-- ModuleHealthCalculator._normalize_debt (the decimal literal 1.33 is the
rational 133/100). -/
def mhNormalizeDebt (d : Option TdModDebt) : ℚ :=
  let r : ℚ := match d with
    | some st => st.debt_ratio
    | none => 0
  if r ≤ 5 then 100 - r * 2
  else if r ≤ 10 then 90 - (r - 5) * 2
  else if r ≤ 20 then 80 - (r - 10) * 2
  else if r ≤ 50 then 60 - (r - 20) * 1.33
  else max 0 (20 - (r - 50) * 0.4)

/-- ModuleHealthCalculator._categorize_health. -/
def mhCategorize (score : ℚ) : String :=
  if score ≥ 80 then "excellent"
  else if score ≥ 60 then "good"
  else if score ≥ 40 then "warning"
  else if score ≥ 20 then "critical"
  else "emergency"

/-- The components sub-record of one module-health entry. -/
structure MHComponents where
  coupling : ℚ
  complexity : ℚ
  maintainability : ℚ
  testability : ℚ
  smells : ℚ
  debt : ℚ
deriving Repr, DecidableEq

/-- One by_module entry of the module-health results. -/
structure MHEntry where
  module : String
  score : ℚ
  category : String
  components : MHComponents
  file_count : Nat
  avg_complexity : ℚ
  avg_maintainability : ℚ
  test_coverage : ℚ
deriving Repr, DecidableEq

/-- ModuleHealthCalculator._calculate_module_health, with the class WEIGHTS
inlined: coupling 0.30, complexity 0.20, maintainability 0.20, testability
0.15, smells 0.10, debt 0.05. -/
def mhCalculateModuleHealth (I : MHInputs) (m : String) : MHEntry :=
  let coupling_score := mhNormalizeCoupling (lookupA I.db_coupling m)
  let complexity_score := mhNormalizeComplexity (lookupA I.complexity m)
  let maintainability_score : ℚ := match lookupA I.maintainability m with
    | some st => st.avg_mi
    | none => 50
  let unit_tests : Nat := match lookupA I.tests m with
    | some st => st.unit_tests
    | none => 0
  let integration_tests : Nat := match lookupA I.tests m with
    | some st => st.integration_tests
    | none => 0
  let total_tests := unit_tests + integration_tests
  let testability_score : ℚ :=
    if total_tests > 0 then ((unit_tests : ℚ) / (total_tests : ℚ)) * 100 else 0
  let smells_score := mhNormalizeSmells (lookupA I.code_smells m) (lookupA I.code_size m)
  let debt_score := mhNormalizeDebt (lookupA I.tech_debt m)
  let health_score := coupling_score * 0.30 + complexity_score * 0.20 +
    maintainability_score * 0.20 + testability_score * 0.15 +
    smells_score * 0.10 + debt_score * 0.05
  { module := m
    score := health_score
    category := mhCategorize health_score
    components := ⟨coupling_score, complexity_score, maintainability_score,
      testability_score, smells_score, debt_score⟩
    file_count := match lookupA I.code_size m with
      | some st => st.file_count
      | none => 0
    avg_complexity := match lookupA I.complexity m with
      | some st => st.avg_complexity
      | none => 0
    avg_maintainability := match lookupA I.maintainability m with
      | some st => st.avg_mi
      | none => 0
    test_coverage := testability_score }

/-- The module sloc read by calculate to decide inclusion. -/
def mhSlocOf (I : MHInputs) (m : String) : Nat :=
  match lookupA I.code_size m with
  | some st => st.total_sloc
  | none => 0

/-- One module_rankings entry. -/
structure MHRanking where
  module : String
  score : ℚ
  category : String
deriving Repr, DecidableEq

/-- The module-health results. -/
structure MHResults where
  overall_health : ℚ
  by_module : List (String × MHEntry)
  module_rankings : List MHRanking
deriving Repr, DecidableEq

/-- ModuleHealthCalculator.calculate: modules with zero sloc are skipped
entirely; overall health is the unweighted mean of the included modules'
scores; rankings are sorted ascending (worst first). -/
def mhCalculate (I : MHInputs) : MHResults :=
  let included := I.modules.filter (fun m => decide (¬ mhSlocOf I m = 0))
  let by_module := included.map (fun m => (m, mhCalculateModuleHealth I m))
  let module_count := included.length
  let total_health := (included.map (fun m => (mhCalculateModuleHealth I m).score)).sum
  let overall := if module_count > 0 then total_health / (module_count : ℚ) else 0
  let rankings := (by_module.map (fun p : String × MHEntry =>
    (⟨p.1, p.2.score, p.2.category⟩ : MHRanking))).mergeSort
    (fun a b => decide (a.score ≤ b.score))
  { overall_health := overall, by_module := by_module, module_rankings := rankings }

/-- C10: a module included in scoring (nonzero sloc) but absent from the
complexity by_module mapping gets average complexity defaulted to 5.0, hence
a complexity component of 80.0 rather than 100.0, and the weighted health
score uses this defaulted component like any other. -/
theorem C10_missing_complexity_module_scores_80 (I : MHInputs) (m : String)
    (hm : m ∈ I.modules) (hsloc : mhSlocOf I m ≠ 0)
    (hcx : lookupA I.complexity m = none) :
    lookupA (mhCalculate I).by_module m = some (mhCalculateModuleHealth I m) ∧
    (mhCalculateModuleHealth I m).components.complexity = 80 ∧
    (mhCalculateModuleHealth I m).score =
      (mhCalculateModuleHealth I m).components.coupling * 0.30 + 80 * 0.20 +
      (mhCalculateModuleHealth I m).components.maintainability * 0.20 +
      (mhCalculateModuleHealth I m).components.testability * 0.15 +
      (mhCalculateModuleHealth I m).components.smells * 0.10 +
      (mhCalculateModuleHealth I m).components.debt * 0.05 := by
  have h80 : mhNormalizeComplexity (lookupA I.complexity m) = 80 := by
    rw [hcx]
    unfold mhNormalizeComplexity
    rw [if_pos (by norm_num)]
    norm_num
  refine ⟨?_, ?_, ?_⟩
  · unfold mhCalculate
    dsimp only
    exact lookupA_self_map _ _ m (List.mem_filter.mpr ⟨hm, by simpa using hsloc⟩)
  · exact h80
  · unfold mhCalculateModuleHealth
    dsimp only
    rw [h80]

/-- C10 witness: a one-module run where the module has 10 sloc but no
complexity entry; all three conclusions instantiated, the hypotheses
discharged concretely. -/
theorem C10_missing_complexity_module_scores_80_witness :
    lookupA (mhCalculate ⟨["m"], [], [], [], [], [], [],
        [("m", ⟨10, 1, 0, 0, 0, 10⟩)]⟩).by_module "m" =
      some (mhCalculateModuleHealth ⟨["m"], [], [], [], [], [], [],
        [("m", ⟨10, 1, 0, 0, 0, 10⟩)]⟩ "m") ∧
    (mhCalculateModuleHealth ⟨["m"], [], [], [], [], [], [],
        [("m", ⟨10, 1, 0, 0, 0, 10⟩)]⟩ "m").components.complexity = 80 ∧
    (mhCalculateModuleHealth ⟨["m"], [], [], [], [], [], [],
        [("m", ⟨10, 1, 0, 0, 0, 10⟩)]⟩ "m").score =
      (mhCalculateModuleHealth ⟨["m"], [], [], [], [], [], [],
        [("m", ⟨10, 1, 0, 0, 0, 10⟩)]⟩ "m").components.coupling * 0.30 + 80 * 0.20 +
      (mhCalculateModuleHealth ⟨["m"], [], [], [], [], [], [],
        [("m", ⟨10, 1, 0, 0, 0, 10⟩)]⟩ "m").components.maintainability * 0.20 +
      (mhCalculateModuleHealth ⟨["m"], [], [], [], [], [], [],
        [("m", ⟨10, 1, 0, 0, 0, 10⟩)]⟩ "m").components.testability * 0.15 +
      (mhCalculateModuleHealth ⟨["m"], [], [], [], [], [], [],
        [("m", ⟨10, 1, 0, 0, 0, 10⟩)]⟩ "m").components.smells * 0.10 +
      (mhCalculateModuleHealth ⟨["m"], [], [], [], [], [], [],
        [("m", ⟨10, 1, 0, 0, 0, 10⟩)]⟩ "m").components.debt * 0.05 :=
  C10_missing_complexity_module_scores_80
    ⟨["m"], [], [], [], [], [], [], [("m", ⟨10, 1, 0, 0, 0, 10⟩)]⟩ "m"
    (by decide) (by decide) rfl

/-! ## Claim C7: zero denominators -/

theorem lookupA_mem {α : Type} (d : List (String × α)) (k : String) (v : α)
    (h : lookupA d k = some v) : (k, v) ∈ d := by
  induction d with
  | nil => cases h
  | cons hd tl ih =>
    obtain ⟨n, w⟩ := hd
    by_cases he : n = k
    · subst he
      simp [lookupA] at h
      subst h
      exact List.mem_cons_self _ _
    · have h2 : lookupA tl k = some v := by simpa [lookupA, he] using h
      exact List.mem_cons_of_mem _ (ih h2)

theorem updA_forall {α : Type} (P : α → Prop) (d : List (String × α)) (k : String)
    (dflt : α) (f : α → α) (hf : ∀ v, P v → P (f v)) (hd : P dflt)
    (hall : ∀ p ∈ d, P p.2) : ∀ p ∈ updA d k dflt f, P p.2 := by
  induction d with
  | nil =>
    intro p hp
    simp [updA] at hp
    rw [hp]
    exact hf dflt hd
  | cons hd2 tl ih =>
    intro p hp
    obtain ⟨n, w⟩ := hd2
    by_cases he : n = k
    · subst he
      rw [updA, if_pos rfl] at hp
      rcases List.mem_cons.mp hp with h1 | h1
      · rw [h1]
        exact hf w (hall (n, w) (List.mem_cons_self _ _))
      · exact hall p (List.mem_cons_of_mem _ h1)
    · rw [updA, if_neg he] at hp
      rcases List.mem_cons.mp hp with h1 | h1
      · rw [h1]
        exact hall (n, w) (List.mem_cons_self _ _)
      · exact ih (fun q hq => hall q (List.mem_cons_of_mem _ hq)) p h1

theorem cxModUpdate_avg (threshold : Nat) (fr : CxFileResults) (v : CxModStats) :
    (cxModUpdate threshold fr v).avg_complexity = v.avg_complexity := by
  unfold cxModUpdate
  dsimp only
  split <;> rfl

theorem cxUpdateResults_avg (threshold : Nat) (st : CxState) (fr : CxFileResults)
    (mod : String) (hf : ¬ fr.functions = []) :
    (cxUpdateResults threshold st fr mod).avg_complexity = st.avg_complexity := by
  unfold cxUpdateResults
  rw [if_neg hf]
  dsimp only
  split <;> rfl

/-- The complexity zero-average invariant: the global average and every
module average stay at their initial 0.0 until finalize computes them. -/
def CxAvgInv (st : CxState) : Prop :=
  st.avg_complexity = 0 ∧ ∀ p ∈ st.by_module, p.2.avg_complexity = 0

theorem cxAnalyzeFile_avg_inv (threshold : Nat) (st : CxState) (f : CxFileInput)
    (h : CxAvgInv st) : CxAvgInv (cxAnalyzeFile threshold st f) := by
  obtain ⟨h1, h2⟩ := h
  unfold cxAnalyzeFile
  dsimp only
  by_cases hb : f.blocks = []
  · rw [if_pos hb]
    exact ⟨h1, h2⟩
  · rw [if_neg hb]
    by_cases hfn : (cxProcessBlocks threshold f.file f.module f.blocks).1.functions = []
    · unfold cxUpdateResults
      rw [if_pos hfn]
      exact ⟨h1, h2⟩
    · constructor
      · rw [cxUpdateResults_avg _ _ _ _ hfn]
        exact h1
      · rw [(cxUpdateResults_counts threshold _ _ f.module hfn).2]
        exact updA_forall (fun v : CxModStats => v.avg_complexity = 0) _ _ _ _
          (fun v hv => (cxModUpdate_avg threshold _ v).trans hv) rfl h2

theorem cxRun_avg_inv (threshold : Nat) (files : List CxFileInput) :
    CxAvgInv (cxRun threshold files) := by
  exact foldl_inv (cxAnalyzeFile threshold)
    (fun s f hs => cxAnalyzeFile_avg_inv threshold s f hs) files cxInit
    ⟨rfl, by intro p hp; cases hp⟩

theorem cxModFinalize_total (v : CxModStats) :
    (cxModFinalize v).total_functions = v.total_functions := rfl

theorem csModFinalize_fields (s : SizeModStats) :
    (csModFinalize s).total_loc = s.total_loc ∧
    (csModFinalize s).file_count = s.file_count := by
  unfold csModFinalize
  dsimp only
  split <;> split <;> exact ⟨rfl, rfl⟩

theorem csModFinalize_ratio_zero (v : SizeModStats) (hvl : v.total_loc = 0)
    (hvr : v.comment_ratio = 0) : (csModFinalize v).comment_ratio = 0 := by
  unfold csModFinalize
  dsimp only
  split
  · rw [if_neg (by (try dsimp only); omega)]
    exact hvr
  · rw [if_neg (by omega)]
    exact hvr

theorem csModFinalize_avg_zero (v : SizeModStats) (hvc : v.file_count = 0)
    (hva : v.avg_file_size = 0) : (csModFinalize v).avg_file_size = 0 := by
  unfold csModFinalize
  dsimp only
  rw [if_neg (show ¬ v.file_count > 0 by omega)]
  split <;> exact hva

theorem csAnalyzeFile_fields (a b c : Nat) (st : CsState) (f : CsFileInput)
    (hp : f.parse_ok = true) :
    (csAnalyzeFile a b c st f).comment_ratio = st.comment_ratio ∧
    (csAnalyzeFile a b c st f).by_module =
      updA st.by_module f.module SizeModStats.init
        (csModUpdate f.sloc f.comments f.loc) := by
  unfold csAnalyzeFile
  rw [if_neg (by simp [hp])]
  dsimp only
  split <;> try split <;> try split <;> try split <;> try split <;> try split
  all_goals exact ⟨rfl, rfl⟩

/-- The code-size zero-ratio invariant: the global comment ratio and every
module's comment ratio and average file size stay at 0.0 until finalize. -/
def CsRatioInv (st : CsState) : Prop :=
  st.comment_ratio = 0 ∧
  ∀ p ∈ st.by_module, p.2.comment_ratio = 0 ∧ p.2.avg_file_size = 0

theorem csAnalyzeFile_ratio_inv (a b c : Nat) (st : CsState) (f : CsFileInput)
    (h : CsRatioInv st) : CsRatioInv (csAnalyzeFile a b c st f) := by
  obtain ⟨h1, h2⟩ := h
  by_cases hp : f.parse_ok = true
  · obtain ⟨e1, e2⟩ := csAnalyzeFile_fields a b c st f hp
    constructor
    · rw [e1]
      exact h1
    · rw [e2]
      exact updA_forall
        (fun v : SizeModStats => v.comment_ratio = 0 ∧ v.avg_file_size = 0)
        _ _ _ _ (fun v hv => hv) ⟨rfl, rfl⟩ h2
  · unfold csAnalyzeFile
    rw [if_pos (by simpa using hp)]
    exact ⟨h1, h2⟩

theorem csRun_ratio_inv (a b c : Nat) (files : List CsFileInput) :
    CsRatioInv (csRun a b c files) := by
  exact foldl_inv (csAnalyzeFile a b c)
    (fun s f hs => csAnalyzeFile_ratio_inv a b c s f hs) files csInit
    ⟨rfl, by intro p hp; cases hp⟩

theorem tdFoldAddDebt_dev {α : Type} (l : List α) (t : α → String) (c : α → ℚ)
    (st : TdState) :
    (l.foldl (fun s x => tdAddDebt s (t x) (c x)) st).development_cost_hours =
      st.development_cost_hours := by
  induction l generalizing st with
  | nil => rfl
  | cons x xs ih =>
    rw [List.foldl_cons, ih]
    rfl

theorem tdComplexityDebt_dev (costs : List (String × ℚ)) (st : TdState)
    (r : TdComplexityInput) :
    (tdComplexityDebt costs st r).development_cost_hours =
      st.development_cost_hours :=
  tdFoldAddDebt_dev r.high_complexity_functions tdComplexityIssueType
    (fun fc => tdCostGet costs (tdComplexityIssueType fc) 0.5) st

theorem tdMaintainabilityDebt_dev (costs : List (String × ℚ)) (st : TdState)
    (r : MiFinal) :
    (tdMaintainabilityDebt costs st r).development_cost_hours =
      st.development_cost_hours :=
  tdFoldAddDebt_dev r.low_maintainability_files (fun _ => "low_maintainability")
    (fun _ => tdCostGet costs "low_maintainability" 2) st

theorem tdDbCouplingDebt_dev (costs : List (String × ℚ)) (st : TdState)
    (r : TdDbInput) :
    (tdDbCouplingDebt costs st r).development_cost_hours =
      st.development_cost_hours :=
  tdFoldAddDebt_dev r.violations tdViolationIssueType
    (fun v => tdCostGet costs (tdViolationIssueType v) 1) st

theorem tdClassDebt_dev (costs : List (String × ℚ)) (st : TdState) (r : ClsFinal) :
    (tdClassDebt costs st r).development_cost_hours = st.development_cost_hours := by
  have h1 := tdFoldAddDebt_dev r.god_classes (fun _ => "god_class")
    (fun _ => tdCostGet costs "god_class" 4) st
  have h2 := tdFoldAddDebt_dev r.low_cohesion_classes (fun _ => "low_cohesion")
    (fun _ => tdCostGet costs "low_cohesion" 3)
    (r.god_classes.foldl (fun s x => tdAddDebt s ((fun _ => "god_class") x)
      ((fun _ => tdCostGet costs "god_class" 4) x)) st)
  exact h2.trans h1

theorem tdSmellsDebt_dev (costs : List (String × ℚ)) (st : TdState)
    (r : TdSmellsInput) :
    (tdSmellsDebt costs st r).development_cost_hours = st.development_cost_hours := by
  have h1 := tdFoldAddDebt_dev r.long_methods (fun _ => "long_method")
    (fun _ => tdCostGet costs "long_method" 0.5) st
  have h2 := tdFoldAddDebt_dev r.long_parameter_lists (fun _ => "long_parameter_list")
    (fun _ => tdCostGet costs "long_parameter_list" 0.25)
    (r.long_methods.foldl (fun s x => tdAddDebt s ((fun _ => "long_method") x)
      ((fun _ => tdCostGet costs "long_method" 0.5) x)) st)
  have h3 := tdFoldAddDebt_dev r.deep_nesting (fun _ => "deep_nesting")
    (fun _ => tdCostGet costs "deep_nesting" 0.5)
    (r.long_parameter_lists.foldl (fun s x =>
      tdAddDebt s ((fun _ => "long_parameter_list") x)
        ((fun _ => tdCostGet costs "long_parameter_list" 0.25) x))
      (r.long_methods.foldl (fun s x => tdAddDebt s ((fun _ => "long_method") x)
        ((fun _ => tdCostGet costs "long_method" 0.5) x)) st))
  exact (h3.trans h2).trans h1

theorem tdCalculate_dev (costs : List (String × ℚ)) (cx : TdComplexityInput)
    (mi : MiFinal) (cs : CsState) (db : TdDbInput) (cls : ClsFinal)
    (sm : TdSmellsInput) :
    (tdCalculate costs cx mi cs db cls sm).development_cost_hours =
      (cs.total_sloc : ℚ) * 0.1 := by
  show (tdSmellsDebt costs (tdClassDebt costs (tdDbCouplingDebt costs
    (tdMaintainabilityDebt costs (tdComplexityDebt costs
      { tdInit with development_cost_hours := (cs.total_sloc : ℚ) * 0.1 } cx) mi)
    db) cls) sm).development_cost_hours = _
  rw [tdSmellsDebt_dev, tdClassDebt_dev, tdDbCouplingDebt_dev,
    tdMaintainabilityDebt_dev, tdComplexityDebt_dev]

/-- C7 counterexample: the test-analysis finalize sets the global testability
score to 100.0, not 0.0, when its denominator functions_with_business_logic
is 0, contradicting the claim that every listed ratio evaluates to 0.0. -/
theorem C7_counterexample_testability_is_100_on_zero :
    (taFinalize ⟨0, 0, 0, 0, 0, 0, ⟨0, 0⟩, ⟨0, 0, 0, 0, 0, 0, 0, 0, 0⟩, [],
        ⟨0, 0, 0, 0, 0⟩⟩ [] []).testability.testability_score = 100 ∧
      ((100 : ℚ) ≠ 0) := by
  constructor
  · rfl
  · norm_num

/-- C7 (amended): every listed zero-denominator ratio evaluates to 0.0 --
avg_complexity with no functions (globally and per module), comment_ratio
with no lines and avg_file_size with no files (globally and per module),
debt_ratio with zero development cost, instability with Ca+Ce = 0, the test
unit and integration percentages, the edge-case percentages, the per-module
testability score and the function coverage -- except the global testability
score, which evaluates to 100.0 when functions_with_business_logic is 0 (no
business logic means nothing fails testability). -/
theorem C7_zero_denominator_ratios :
    (∀ (threshold : Nat) (files : List CxFileInput),
      (cxRun threshold files).total_functions = 0 →
      (cxFinalize (cxRun threshold files)).avg_complexity = 0) ∧
    (∀ (threshold : Nat) (files : List CxFileInput) (m : String) (e : CxModFinal),
      lookupA (cxFinalize (cxRun threshold files)).by_module m = some e →
      e.total_functions = 0 → e.avg_complexity = 0) ∧
    (∀ (a b c : Nat) (files : List CsFileInput),
      (csRun a b c files).total_loc = 0 →
      (csFinalize a (csRun a b c files)).comment_ratio = 0) ∧
    (∀ (a b c : Nat) (files : List CsFileInput) (m : String) (s : SizeModStats),
      lookupA (csFinalize a (csRun a b c files)).by_module m = some s →
      (s.total_loc = 0 → s.comment_ratio = 0) ∧
      (s.file_count = 0 → s.avg_file_size = 0)) ∧
    (∀ (costs : List (String × ℚ)) (cx : TdComplexityInput) (mi : MiFinal)
        (cs : CsState) (db : TdDbInput) (cls : ClsFinal) (sm : TdSmellsInput),
      cs.total_sloc = 0 →
      (tdCalculate costs cx mi cs db cls sm).development_cost_hours = 0 ∧
      (tdCalculate costs cx mi cs db cls sm).debt_ratio = 0) ∧
    (∀ (ca ce : Nat), ca + ce = 0 → mcInstability ca ce = 0) ∧
    (∀ (st : TAState) (pf tf : List (String × List String)),
      st.total_test_functions = 0 →
      st.test_ratio.unit_percentage = 0 →
      st.test_ratio.integration_percentage = 0 →
      (taFinalize st pf tf).test_ratio.unit_percentage = 0 ∧
      (taFinalize st pf tf).test_ratio.integration_percentage = 0) ∧
    (∀ (st : TAState) (pf tf : List (String × List String)),
      st.edge_case_analysis.total_edge_case_tests +
        st.edge_case_analysis.total_happy_path_tests = 0 →
      (taFinalize st pf tf).edge_case_analysis.edge_case_percentage = 0) ∧
    (∀ (st : TAState) (pf tf : List (String × List String)),
      st.testability.functions_with_business_logic = 0 →
      (taFinalize st pf tf).testability.testability_score = 100) ∧
    (∀ (pf tf : List (String × List String)) (m : String) (s : TAModStats),
      (s.unit_tests + s.integration_tests = 0 →
        (taModFinalize pf tf m s).testability_score = 0) ∧
      (s.edge_case_tests + s.happy_path_tests = 0 →
        (taModFinalize pf tf m s).edge_case_percentage = 0) ∧
      ((lookupA pf m).getD [] = [] →
        (taModFinalize pf tf m s).function_coverage = 0)) := by
  refine ⟨?_, ?_, ?_, ?_, ?_, ?_, ?_, ?_, ?_, ?_⟩
  · intro threshold files h
    obtain ⟨h1, _⟩ := cxRun_avg_inv threshold files
    unfold cxFinalize
    dsimp only
    rw [if_neg (by omega)]
    exact h1
  · intro threshold files m e he h0
    obtain ⟨_, h2⟩ := cxRun_avg_inv threshold files
    have hmap := lookupA_map (cxRun threshold files).by_module
      (fun _ v => cxModFinalize v) m
    have hstep : lookupA (cxFinalize (cxRun threshold files)).by_module m =
        (lookupA (cxRun threshold files).by_module m).map
          (fun v => cxModFinalize v) := hmap
    rw [hstep] at he
    rcases hv : lookupA (cxRun threshold files).by_module m with _ | v
    · rw [hv] at he
      cases he
    · rw [hv] at he
      have hev : e = cxModFinalize v := by
        simpa using he.symm
      have hvz : v.avg_complexity = 0 := h2 (m, v) (lookupA_mem _ _ _ hv)
      have hvt : v.total_functions = 0 := by
        rw [hev, cxModFinalize_total] at h0
        exact h0
      rw [hev]
      unfold cxModFinalize
      dsimp only
      rw [if_neg (by omega)]
      exact hvz
  · intro a b c files h
    obtain ⟨h1, _⟩ := csRun_ratio_inv a b c files
    unfold csFinalize
    dsimp only
    rw [if_neg (by omega)]
    exact h1
  · intro a b c files m s he
    obtain ⟨_, h2⟩ := csRun_ratio_inv a b c files
    have hmap := lookupA_map (csRun a b c files).by_module
      (fun _ v => csModFinalize v) m
    have hstep : lookupA (csFinalize a (csRun a b c files)).by_module m =
        (lookupA (csRun a b c files).by_module m).map
          (fun v => csModFinalize v) := hmap
    rw [hstep] at he
    rcases hv : lookupA (csRun a b c files).by_module m with _ | v
    · rw [hv] at he
      cases he
    · rw [hv] at he
      have hev : s = csModFinalize v := by
        simpa using he.symm
      obtain ⟨hvr, hva⟩ := h2 (m, v) (lookupA_mem _ _ _ hv)
      have hvr2 : v.comment_ratio = 0 := hvr
      have hva2 : v.avg_file_size = 0 := hva
      obtain ⟨hl, hc⟩ := csModFinalize_fields v
      constructor
      · intro h0
        have hvl : v.total_loc = 0 := by
          rw [hev, hl] at h0
          exact h0
        rw [hev]
        exact csModFinalize_ratio_zero v hvl hvr2
      · intro h0
        have hvc : v.file_count = 0 := by
          rw [hev, hc] at h0
          exact h0
        rw [hev]
        exact csModFinalize_avg_zero v hvc hva2
  · intro costs cx mi cs db cls sm h
    constructor
    · rw [tdCalculate_dev, h]
      norm_num
    · unfold tdCalculate
      dsimp only
      rw [if_neg (by
        rw [tdSmellsDebt_dev, tdClassDebt_dev, tdDbCouplingDebt_dev,
          tdMaintainabilityDebt_dev, tdComplexityDebt_dev]
        dsimp only
        rw [h]
        norm_num)]
  · intro ca ce h
    unfold mcInstability
    rw [if_neg (by omega)]
  · intro st pf tf h h1 h2
    unfold taFinalize
    dsimp only
    rw [if_neg (by omega)]
    exact ⟨h1, h2⟩
  · intro st pf tf h
    unfold taFinalize
    dsimp only
    split
    · rw [if_neg (by (try dsimp only); omega)]
    · rw [if_neg (by omega)]
  · intro st pf tf h
    unfold taFinalize
    dsimp only
    split
    · rw [if_neg (by (try dsimp only); omega)]
    · rw [if_neg (by omega)]
  · intro pf tf m s
    refine ⟨?_, ?_, ?_⟩
    · intro h
      unfold taModFinalize
      dsimp only
      rw [if_neg (show ¬ s.unit_tests + s.integration_tests > 0 by omega)]
      split
      · split <;> rfl
      · split <;> rfl
    · intro h
      unfold taModFinalize
      dsimp only
      rw [if_neg (show ¬ s.edge_case_tests + s.happy_path_tests > 0 by omega)]
      split <;> rfl
    · intro h
      unfold taModFinalize
      dsimp only
      rw [if_pos (show (Option.getD (lookupA pf m) []).isEmpty = true by
        rw [h]
        rfl)]

/-- C7 witness: the amended statements applied at concrete inputs with their
zero-denominator hypotheses discharged: an empty complexity run and an empty
test-analysis state. -/
theorem C7_zero_denominator_ratios_witness :
    (cxFinalize (cxRun 10 [])).avg_complexity = 0 ∧
    (taFinalize ⟨0, 0, 0, 0, 0, 0, ⟨0, 0⟩, ⟨0, 0, 0, 0, 0, 0, 0, 0, 0⟩, [],
        ⟨0, 0, 0, 0, 0⟩⟩ [] []).test_ratio.unit_percentage = 0 ∧
    mcInstability 0 0 = 0 :=
  ⟨C7_zero_denominator_ratios.1 10 [] rfl,
   (C7_zero_denominator_ratios.2.2.2.2.2.2.1
     ⟨0, 0, 0, 0, 0, 0, ⟨0, 0⟩, ⟨0, 0, 0, 0, 0, 0, 0, 0, 0⟩, [], ⟨0, 0, 0, 0, 0⟩⟩
     [] [] rfl rfl rfl).1,
   C7_zero_denominator_ratios.2.2.2.2.2.1 0 0 rfl⟩

/-- C2 counterexample: get_module_for_file does not pick the longest matching
path.  With modules m1 at path a and m2 at path a/b (declared in that order),
the file a/b/file.py maps to m1 (first match in list order) although the
longest-prefix rule of the spec would give m2. -/
theorem C2_counterexample_first_match_not_longest :
    getModuleForFile [⟨"m1", "a"⟩, ⟨"m2", "a/b"⟩] "a/b/file.py" = "m1" ∧
    getModuleForFileLongest [⟨"m1", "a"⟩, ⟨"m2", "a/b"⟩] "a/b/file.py" = "m2" ∧
    ("m1" : String) ≠ "m2" := by
  refine ⟨by decide, by decide, by decide⟩

/-- C2 (amended): get_module_for_file returns the name of the first module in
declared list order whose path string is a prefix of the file's relative path,
root when no module path matches; the result is memoized per file path, so a
repeated call with the same path returns the same cached result, and a cached
call agrees with the uncached computation whenever the cache is consistent. -/
theorem C2_module_for_file_first_match_memoized :
    (∀ (modules : List PyModule) (relPath : String),
      getModuleForFile modules relPath =
        (match modules.find? (fun m => strStartsWith relPath m.path) with
         | some m => m.name
         | none => "root")) ∧
    (∀ (modules : List PyModule) (cache : List (String × String)) (relPath : String),
      (getModuleForFileCached modules
        (getModuleForFileCached modules cache relPath).2 relPath).1 =
        (getModuleForFileCached modules cache relPath).1) ∧
    (∀ (modules : List PyModule) (cache : List (String × String)) (relPath : String),
      (∀ p v, lookupA cache p = some v → v = getModuleForFile modules p) →
      (getModuleForFileCached modules cache relPath).1 =
        getModuleForFile modules relPath) := by
  refine ⟨?_, ?_, ?_⟩
  · intro modules relPath
    induction modules with
    | nil => rfl
    | cons m rest ih =>
      by_cases h : strStartsWith relPath m.path
      · simp [getModuleForFile, h, List.find?_cons_of_pos]
      · rw [getModuleForFile, if_neg (by simp [h]), ih,
          List.find?_cons_of_neg _ (by simp [h])]
  · intro modules cache relPath
    unfold getModuleForFileCached
    cases hc : lookupA cache relPath with
    | some v => simp [hc]
    | none => simp [hc, lookupA_setA_self]
  · intro modules cache relPath hwf
    unfold getModuleForFileCached
    cases hc : lookupA cache relPath with
    | some v => simpa using hwf relPath v hc
    | none => simp [hc]

/-- C2 witness: the amended theorem applied at a concrete module list, cache
and path, with its cache-consistency hypothesis discharged on the empty cache. -/
theorem C2_module_for_file_first_match_memoized_witness :
    (getModuleForFileCached [⟨"m1", "a"⟩] [] "a/file.py").1 =
      getModuleForFile [⟨"m1", "a"⟩] "a/file.py" :=
  C2_module_for_file_first_match_memoized.2.2 [⟨"m1", "a"⟩] [] "a/file.py"
    (by intro p v h; cases h)

end Cobana
